import Mathlib

/-!
Verification of the entity-resolution and contract-composition engine of
`go.py` (the `generate_universe` repository).

The Python program is shallowly embedded: JSON values become the inductive
family `JVal`/`JArr`/`JObj` (a Python `dict` is an ordered association
structure `JObj`, a JSON array is `JArr`); Python string operations are
modelled by executable char-list functions (`py_strip`, `py_lower`, ...);
`print` of a non-fatal warning is modelled by collecting the warned token;
`sys.exit(1)` inside a library function is modelled by `Except.error`.

Numbers are carried as their Python `str()` decimal form: `jint s` is a
Python `int` (or `bool`-free integral) whose `str()` is `s`, `jfloat s` a
`float` whose `str()` is `s`.  Python's `bool` is kept as a separate
constructor; where the source relies on `bool` being a subclass of `int`
(`isinstance(x, int)` tests), the embedding's `is_py_int` includes it.
-/

set_option maxRecDepth 10000

mutual

/-- JSON-like Python values, mutually with array spines and ordered
object (dict) spines, so that all recursion below is structural. -/
inductive JVal where
  | jnull
  | jbool (b : Bool)
  | jint (s : String)
  | jfloat (s : String)
  | jstr (s : String)
  | jarr (xs : JArr)
  | jobj (kvs : JObj)

/-- Spine of a JSON array. -/
inductive JArr where
  | anil
  | acons (hd : JVal) (tl : JArr)

/-- Spine of a JSON object (Python dict), in insertion order. -/
inductive JObj where
  | onil
  | ocons (k : String) (v : JVal) (tl : JObj)

end

/-- The fields of an object, in insertion order. -/
def JObj.toList : JObj → List (String × JVal)
  | .onil => []
  | .ocons k v tl => (k, v) :: tl.toList

/-- The elements of a JSON array, in order. -/
def JArr.toList : JArr → List JVal
  | .anil => []
  | .acons x tl => x :: tl.toList

/-- Python `dict.get(k)`: the value at the first (unique, for a real dict)
binding of `k`, if any. -/
def jget : JObj → String → Option JVal
  | .onil, _ => none
  | .ocons k v tl, key => if k = key then some v else jget tl key

/-- Python `dict.get(k, d)`. -/
def jgetD (o : JObj) (key : String) (d : JVal) : JVal := (jget o key).getD d

/-- Python truthiness of a JSON-like value (`bool(x)`).  Numeric truthiness
is approximated on the decimal-string representation. -/
def py_truthy : JVal → Bool
  | .jnull => false
  | .jbool b => b
  | .jint s => !(s == "0" || s == "-0")
  | .jfloat s => !(s == "0.0" || s == "-0.0" || s == "0")
  | .jstr s => !(s == "")
  | .jarr .anil => false
  | .jarr (.acons _ _) => true
  | .jobj .onil => false
  | .jobj (.ocons _ _ _) => true

/-- Python truthiness of an `Optional[dict]` (`if x:` on a value that is
`None` or a dict): `None` and the empty dict are falsy. -/
def obj_truthy : Option JObj → Bool
  | none => false
  | some .onil => false
  | some (.ocons _ _ _) => true

/-- Python truthiness of an `Optional[str]`. -/
def str_opt_truthy : Option String → Bool
  | none => false
  | some s => !(s == "")

/-- Python `str.strip()` on the char list. -/
def strip_chars (l : List Char) : List Char :=
  ((l.dropWhile Char.isWhitespace).reverse.dropWhile Char.isWhitespace).reverse

/-- Python `str.strip()`. -/
def py_strip (s : String) : String := String.mk (strip_chars s.data)

/-- Python `str.lower()` (ASCII-adequate). -/
def py_lower (s : String) : String := String.mk (s.data.map Char.toLower)

/-- `_norm` from `go.py`: `(s or "").strip().lower()`. -/
def py_norm (s : String) : String := py_lower (py_strip s)

/-- Python `sep.join(items)`. -/
def join_with (sep : String) : List String → String
  | [] => ""
  | [x] => x
  | x :: y :: tl => x ++ sep ++ join_with sep (y :: tl)

/-- `_title` from `go.py`: strip, then upper-case the first character. -/
def py_title (s : String) : String :=
  let t := py_strip s
  match t.data with
  | [] => t
  | c :: cs => String.mk (c.toUpper :: cs)

/-- `_klabel` from `go.py`: replace `_` by spaces and strip. -/
def klabel (key : String) : String :=
  py_strip (String.mk (key.data.map (fun c => if c = '_' then ' ' else c)))

/-- `_safe_join` from `go.py`: strip the items, drop empty ones, join. -/
def safe_join (items : List String) (sep : String) : String :=
  join_with sep (items.filterMap (fun i =>
    let t := py_strip i
    if t = "" then none else some t))

mutual

/-- Python `repr` of a JSON-like value (shape-faithful; string escaping
inside `repr` is not modelled).  Only used through `py_str` on container
values, whose exact text no claim depends on. -/
def py_repr : (v : JVal) → String
  | .jnull => "None"
  | .jbool b => if b then "True" else "False"
  | .jint s => s
  | .jfloat s => s
  | .jstr s => "\x27" ++ s ++ "\x27"
  | .jarr xs => "[" ++ join_with ", " (py_repr_arr xs) ++ "]"
  | .jobj kvs => "\x7b" ++ join_with ", " (py_repr_obj kvs) ++ "\x7d"
termination_by structural v => v

/-- `repr` of the elements of an array. -/
def py_repr_arr : (a : JArr) → List String
  | .anil => []
  | .acons x tl => py_repr x :: py_repr_arr tl
termination_by structural a => a

/-- `repr` of the entries of a dict. -/
def py_repr_obj : (o : JObj) → List String
  | .onil => []
  | .ocons k v tl => ("\x27" ++ k ++ "\x27: " ++ py_repr v) :: py_repr_obj tl
termination_by structural o => o

end

/-- Python `str()` of a JSON-like value: identity on strings, `repr`-like
elsewhere (`str(None) = "None"`, `str(True) = "True"`, numbers decimally). -/
def py_str : JVal → String
  | .jstr s => s
  | v => py_repr v

/-- `isinstance(x, int)` — in Python, `bool` is a subclass of `int`. -/
def is_py_int : JVal → Bool
  | .jint _ => true
  | .jbool _ => true
  | _ => false

/-- `isinstance(x, (int, float))`. -/
def is_py_num : JVal → Bool
  | .jint _ => true
  | .jfloat _ => true
  | .jbool _ => true
  | _ => false

/-- The scalar fragment the list branch of `_value_to_text` produces for
one element: `str(x).strip()` for `str`/`int`/`float` instances (which in
Python include `bool`), kept only when non-empty; `None`, lists and dicts
are dropped. -/
def scalar_frag : JVal → Option String
  | .jstr s => let sx := py_strip s; if sx = "" then none else some sx
  | .jint s => let sx := py_strip s; if sx = "" then none else some sx
  | .jfloat s => let sx := py_strip s; if sx = "" then none else some sx
  | .jbool b => some (if b then "True" else "False")
  | _ => none

/-- The `flat` list built by the `list` branch of `_value_to_text`. -/
def vtt_list_flat : JArr → List String
  | .anil => []
  | .acons x tl =>
      match scalar_frag x with
      | some sx => sx :: vtt_list_flat tl
      | none => vtt_list_flat tl

mutual

/-- `_value_to_text` from `go.py`: serialize an arbitrary JSON-like value
into one text fragment. -/
def value_to_text : (v : JVal) → String
  | .jnull => ""
  | .jbool b => if b then "sim" else "não"
  | .jint s => s
  | .jfloat s => s
  | .jstr s => py_strip s
  | .jarr xs => safe_join (vtt_list_flat xs) ", "
  | .jobj kvs => safe_join (vtt_obj_bits kvs) " | "
termination_by structural v => v

/-- The `bits` list built by the `dict` branch of `_value_to_text`. -/
def vtt_obj_bits : (o : JObj) → List String
  | .onil => []
  | .ocons k v tl =>
      let txt := value_to_text v
      if txt = "" then vtt_obj_bits tl
      else (klabel k ++ ": " ++ txt) :: vtt_obj_bits tl
termination_by structural o => o

end

/-- Keep only the object elements of a raw JSON array (`[x for x in v if
isinstance(x, dict)]`). -/
def objs_of : JArr → List JObj
  | .anil => []
  | .acons x tl =>
      match x with
      | .jobj o => o :: objs_of tl
      | _ => objs_of tl

/-- Probe an ordered list of candidate container keys and return the first
whose value is a JSON array (`data.get(key)` + `isinstance(v, list)`). -/
def first_list_at (o : JObj) : List String → Option JArr
  | [] => none
  | k :: ks =>
      match jget o k with
      | some (.jarr v) => some v
      | _ => first_list_at o ks

/-- `get_assets` from `go.py`: accepts a bare list, or a dict keyed by
`assets`, `assets_registry` or `registry`. -/
def get_assets (data : JVal) : List JObj :=
  match data with
  | .jarr xs => objs_of xs
  | .jobj o =>
      match first_list_at o ["assets", "assets_registry", "registry"] with
      | some v => objs_of v
      | none => []
  | _ => []

/-- `get_spaces` from `go.py`: a dict keyed by `spaces`, or a bare list. -/
def get_spaces (data : JVal) : List JObj :=
  match data with
  | .jobj o =>
      match jget o "spaces" with
      | some (.jarr v) => objs_of v
      | _ => []
  | .jarr xs => objs_of xs
  | _ => []

/-- `get_clusters` from `go.py`: only a dict keyed by `clusters`. -/
def get_clusters (data : JVal) : List JObj :=
  match data with
  | .jobj o =>
      match jget o "clusters" with
      | some (.jarr v) => objs_of v
      | _ => []
  | _ => []

/-- `get_universes` from `go.py`: a dict keyed by `universes`, or a list. -/
def get_universes (data : JVal) : List JObj :=
  match data with
  | .jobj o =>
      match jget o "universes" with
      | some (.jarr v) => objs_of v
      | _ => []
  | .jarr xs => objs_of xs
  | _ => []

/-- The per-entity match test of `resolve_space`/`resolve_universe`:
normalized `id` or normalized `name` equals the normalized token. -/
def id_name_matches (t : String) (o : JObj) : Bool :=
  py_norm (py_str (jgetD o "id" (.jstr ""))) = t ||
  py_norm (py_str (jgetD o "name" (.jstr ""))) = t

/-- The scanning loop shared by `resolve_space`/`resolve_universe`. -/
def resolve_entity_go (t : String) : List JObj → Option JObj
  | [] => none
  | o :: rest =>
      if py_norm (py_str (jgetD o "id" (.jstr ""))) = t then some o
      else if py_norm (py_str (jgetD o "name" (.jstr ""))) = t then some o
      else resolve_entity_go t rest

/-- `resolve_space` from `go.py`. -/
def resolve_space (spaces : List JObj) (token : String) : Option JObj :=
  resolve_entity_go (py_norm token) spaces

/-- `resolve_universe` from `go.py`. -/
def resolve_universe (universes : List JObj) (token : String) : Option JObj :=
  resolve_entity_go (py_norm token) universes

/-- The per-cluster match test of `resolve_cluster`: only `cluster_id`. -/
def cluster_matches (t : String) (c : JObj) : Bool :=
  py_norm (py_str (jgetD c "cluster_id" (.jstr ""))) = t

/-- The scanning loop of `resolve_cluster`. -/
def resolve_cluster_go (t : String) : List JObj → Option JObj
  | [] => none
  | c :: rest =>
      if py_norm (py_str (jgetD c "cluster_id" (.jstr ""))) = t then some c
      else resolve_cluster_go t rest

/-- `resolve_cluster` from `go.py`. -/
def resolve_cluster (clusters : List JObj) (cluster_id : String) : Option JObj :=
  resolve_cluster_go (py_norm cluster_id) clusters

/-- Normalized `asset_id` of an asset record. -/
def asset_id_norm (a : JObj) : String :=
  py_norm (py_str (jgetD a "asset_id" (.jstr "")))

/-- Normalized trimmed `"<nome> <sobrenome>"` of an asset record. -/
def asset_full_norm (a : JObj) : String :=
  py_norm (py_strip (py_str (jgetD a "nome" (.jstr "")) ++ " " ++
    py_str (jgetD a "sobrenome" (.jstr ""))))

/-- The per-asset match test inside `resolve_assets`. -/
def asset_matches (t : String) (a : JObj) : Bool :=
  t = asset_id_norm a || t = asset_full_norm a

/-- The inner first-match scan of `resolve_assets` for one token. -/
def find_asset_go (t : String) : List JObj → Option JObj
  | [] => none
  | a :: rest =>
      if t = asset_id_norm a || t = asset_full_norm a then some a
      else find_asset_go t rest

/-- The identity key used by `resolve_assets` for de-duplication:
`_norm(str(found.get("asset_id", "")) or full)`. -/
def asset_key (a : JObj) : String :=
  let aidStr := py_str (jgetD a "asset_id" (.jstr ""))
  py_norm (if aidStr = "" then asset_full_norm a else aidStr)

/-- The token loop of `resolve_assets`, carrying the `seen` identity-key
set; the second component collects the tokens of the non-fatal
"Ativo não encontrado" warnings, in print order. -/
def resolve_assets_go (assets : List JObj) :
    List String → List String → List JObj × List String
  | [], _ => ([], [])
  | tok :: rest, seen =>
      match find_asset_go (py_norm tok) assets with
      | some found =>
          let key := asset_key found
          if seen.contains key then resolve_assets_go assets rest seen
          else
            let r := resolve_assets_go assets rest (key :: seen)
            (found :: r.1, r.2)
      | none =>
          let r := resolve_assets_go assets rest seen
          (r.1, tok :: r.2)

/-- `resolve_assets` from `go.py` (warnings collected, not printed). -/
def resolve_assets (assets : List JObj) (tokens : List String) :
    List JObj × List String :=
  resolve_assets_go assets tokens []

/-- `attach_cluster_if_needed` from `go.py` (`bind_cluster` in the spec).
`sys.exit(1)` on a missing required cluster is `Except.error cluster_id`. -/
def attach_cluster_if_needed (space : JObj) (clusters : List JObj)
    (assets_count : Nat) : Except String (Option JObj × Option String) :=
  match jget space "cluster_binding" with
  | some (.jobj binding) =>
      let cluster_id := py_strip (py_str (jgetD binding "cluster_id" (.jstr "")))
      let inherits := py_truthy (jgetD binding "inherits_contract" (.jbool false))
      let requires := py_truthy (jgetD binding "requires_cluster_validation" (.jbool false))
      if cluster_id = "" then .ok (none, none)
      else
        let cluster := resolve_cluster clusters cluster_id
        if !obj_truthy cluster && requires then .error cluster_id
        else if !obj_truthy cluster || !inherits then .ok (cluster, none)
        else .ok (cluster, some (if 2 ≤ assets_count then "duo" else "solo"))
  | _ => .ok (none, none)

/-- The fixed metadata allow-list of `describe_universe`. -/
def universe_meta_keys : List String :=
  ["classification", "temporal_policy", "memory_policy", "safety_envelope",
   "tone", "genre", "year", "setting", "rules", "limits", "notes"]

/-- The `bits` loop of `describe_universe`: allow-listed fields with a
non-empty serialized value, rendered under humanized title-cased keys. -/
def universe_meta_bits (u : JObj) : List String :=
  universe_meta_keys.filterMap (fun k =>
    match jget u k with
    | some v =>
        let txt := value_to_text v
        if txt = "" then none else some ("- " ++ py_title (klabel k) ++ ": " ++ txt)
    | none => none)

/-- Join lines, strip, append the final newline — the closing
`"\n".join(lines).strip() + "\n"` of the describe functions. -/
def finish_lines (lines : List String) : String :=
  py_strip (join_with "\n" lines) ++ "\n"

/-- The `lines` list built by `describe_universe`. -/
def describe_universe_lines (u : JObj) : List String :=
  let name0 := py_strip (py_str (jgetD u "name" (.jstr "")))
  let name := if name0 = "" then "Universo sem nome" else name0
  ["## UNIVERSO ATIVO", "", "**" ++ name ++ "**", ""] ++
  (let bits := universe_meta_bits u
   if bits = [] then [] else "### Metadados" :: bits ++ [""])

/-- `describe_universe` from `go.py`. -/
def describe_universe (u : JObj) : String :=
  finish_lines (describe_universe_lines u)

/-- Lines of the bullet list for `core_principles` / `forbidden_outcomes`:
non-empty string elements, stripped. -/
def contract_str_items : JArr → List String
  | .anil => []
  | .acons x tl =>
      match x with
      | .jstr s =>
          if py_strip s = "" then contract_str_items tl
          else ("- " ++ py_strip s) :: contract_str_items tl
      | _ => contract_str_items tl

/-- Lines of the `execution_requirements` entries. -/
def contract_req_items : JObj → List String
  | .onil => []
  | .ocons kk vv tl =>
      let txt := value_to_text vv
      if txt = "" then contract_req_items tl
      else ("- " ++ klabel kk ++ ": " ++ txt) :: contract_req_items tl

/-- The contract sub-block of the cluster section of `describe_space`. -/
def cluster_contract_lines (c : JObj) : List String :=
  match jget c "contract" with
  | some (.jobj contract) =>
      (match jget contract "core_principles" with
       | some (.jarr core) =>
           match core with
           | .anil => []
           | .acons _ _ =>
               "**Princípios do cluster (sempre presentes):**" ::
                 contract_str_items core ++ [""]
       | _ => []) ++
      (match jget contract "forbidden_outcomes" with
       | some (.jarr forb) =>
           match forb with
           | .anil => []
           | .acons _ _ =>
               "**Proibido no cluster:**" :: contract_str_items forb ++ [""]
       | _ => []) ++
      (match jget contract "execution_requirements" with
       | some (.jobj req) =>
           match req with
           | .onil => []
           | .ocons _ _ _ =>
               "**Requisitos mínimos de execução:**" ::
                 contract_req_items req ++ [""]
       | _ => [])
  | _ => []

/-- Lines of the `variations` sub-block of the cluster section. -/
def cluster_variation_items : JObj → List String
  | .onil => []
  | .ocons vname vobj tl =>
      let rest := cluster_variation_items tl
      if vname = "" then rest
      else
        match vobj with
        | .jobj .onil => ("- " ++ vname) :: rest
        | .jobj (.ocons k v o) =>
            let desc := value_to_text (.jobj (.ocons k v o))
            if desc = "" then ("- " ++ vname) :: rest
            else ("- " ++ vname ++ ": " ++ desc) :: rest
        | _ => ("- " ++ vname) :: rest

/-- The `variations` sub-block of the cluster section. -/
def cluster_variations_lines (c : JObj) : List String :=
  match jget c "variations" with
  | some (.jobj vs) =>
      match vs with
      | .onil => []
      | .ocons _ _ _ =>
          "**Variações possíveis (schema):**" :: cluster_variation_items vs ++ [""]
  | _ => []

/-- The whole cluster section of `describe_space` (emitted only when the
cluster argument is truthy). -/
def cluster_section (c : JObj) (variation : Option String) : List String :=
  let cname0 := py_strip (py_str (jgetD c "name" (.jstr "")))
  let cname :=
    if cname0 = "" then py_strip (py_str (jgetD c "cluster_id" (.jstr "")))
    else cname0
  let cdesc := py_strip (py_str (jgetD c "description" (.jstr "")))
  ["### Cluster (contrato transversal)", "- Nome: " ++ cname] ++
  (if cdesc = "" then [] else ["- Descrição: " ++ cdesc]) ++
  (if str_opt_truthy variation then
     ["- Variação inferida: " ++ variation.getD "" ++ " (pela quantidade de ativos)"]
   else []) ++
  [""] ++
  cluster_contract_lines c ++
  cluster_variations_lines c

/-- The identifier exclusion set of `describe_space`; these keys are never
rendered as space fields. -/
def skip_keys : List String := ["id", "cluster_binding"]

/-- The fixed semantic-field allow-list of `describe_space`. -/
def preferred_keys : List String :=
  ["type", "mode", "description", "objects", "rules", "biomechanics",
   "balance_model", "leverage_model", "erotization_level", "wardrobe_policy",
   "variation_descriptions", "cold_open", "camera", "lighting", "sound",
   "music"]

/-- The `bullets` loop of `describe_space`: allow-listed fields present in
the record with a non-empty serialized value. -/
def space_bullets (space : JObj) : List String :=
  preferred_keys.filterMap (fun k =>
    match jget space k with
    | some v =>
        if skip_keys.contains k then none
        else
          let txt := value_to_text v
          if txt = "" then none
          else some ("- " ++ py_title (klabel k) ++ ": " ++ txt)
    | none => none)

/-- The fragment the `extras` loop of `describe_space` renders for one
record entry: skipped when the key is in the exclusion set or the
allow-list, or the serialized value is empty. -/
def extra_frag (kv : String × JVal) : Option String :=
  if skip_keys.contains kv.1 || preferred_keys.contains kv.1 then none
  else
    let txt := value_to_text kv.2
    if txt = "" then none
    else some ("- " ++ py_title (klabel kv.1) ++ ": " ++ txt)

/-- The `extras` loop of `describe_space`: every other field of the
record, in original key order. -/
def space_extras : JObj → List String
  | .onil => []
  | .ocons k v tl =>
      match extra_frag (k, v) with
      | some line => line :: space_extras tl
      | none => space_extras tl

/-- The "Parâmetros do espaço" section of `describe_space`. -/
def space_params_section (space : JObj) : List String :=
  let bullets := space_bullets space
  let extras := space_extras space
  if bullets = [] && extras = [] then []
  else "### Parâmetros do espaço (base para execução)" :: bullets ++ extras ++ [""]

/-- The cluster part of `describe_space`: the section is emitted only when
the cluster argument is truthy (`if cluster:`). -/
def cluster_part (cluster : Option JObj) (variation : Option String) : List String :=
  match cluster with
  | some (.ocons k v tl) => cluster_section (.ocons k v tl) variation
  | _ => []

/-- The `lines` list built by `describe_space`. -/
def describe_space_lines (space : JObj) (cluster : Option JObj)
    (variation : Option String) : List String :=
  let name0 := py_strip (py_str (jgetD space "name" (.jstr "")))
  let name := if name0 = "" then "Espaço sem nome" else name0
  ["## ESPAÇO ATIVO", "", "**" ++ name ++ "**", ""] ++
  cluster_part cluster variation ++
  space_params_section space

/-- `describe_space` from `go.py`. -/
def describe_space (space : JObj) (cluster : Option JObj)
    (variation : Option String) : String :=
  finish_lines (describe_space_lines space cluster variation)

/-- `describe_asset` from `go.py`: fixed semantic buckets plus the
constant wardrobe-policy sentence. -/
def describe_asset (a : JObj) : String :=
  let nome := py_strip (py_str (jgetD a "nome" (.jstr "")))
  let sobrenome := py_strip (py_str (jgetD a "sobrenome" (.jstr "")))
  let full0 := py_strip (nome ++ " " ++ sobrenome)
  let full := if full0 = "" then "Ativo sem nome" else full0
  let nasc := py_strip (py_str (jgetD a "data_nascimento" (.jstr "")))
  let signo := py_strip (py_str (jgetD a "signo" (.jstr "")))
  let altura := jgetD a "altura_cm" .jnull
  let peso := jgetD a "peso_kg" .jnull
  let idade := jgetD a "idade" .jnull
  let cabelo := py_strip (py_str (jgetD a "cor_cabelo" (.jstr "")))
  let corte := py_strip (py_str (jgetD a "corte_penteado" (.jstr "")))
  let pele := py_strip (py_str (jgetD a "cor_pele" (.jstr "")))
  let olhos := py_strip (py_str (jgetD a "cor_olhos" (.jstr "")))
  let estrutura := py_strip (py_str (jgetD a "estrutura_corpo" (.jstr "")))
  let tecido := jgetD a "tecido_adiposo" .jnull
  let musc := jgetD a "musculatura" .jnull
  let personalidade := py_strip (py_str (jgetD a "personalidade" (.jstr "")))
  let asc := py_strip (py_str (jgetD a "ascendente" (.jstr "")))
  let asc_conf := jgetD a "ascendente_confianca" .jnull
  let dados :=
    (if nasc = "" then [] else ["nascimento " ++ nasc]) ++
    (if is_py_int idade then ["idade " ++ py_str idade] else []) ++
    (if signo = "" then [] else ["signo " ++ signo]) ++
    (if is_py_int altura then ["altura " ++ py_str altura ++ " cm"] else []) ++
    (if is_py_num peso then ["peso " ++ py_str peso ++ " kg"] else [])
  let apar :=
    (if cabelo = "" then [] else ["cabelo " ++ cabelo]) ++
    (if corte = "" then [] else ["corte " ++ corte]) ++
    (if pele = "" then [] else ["pele " ++ pele]) ++
    (if olhos = "" then [] else ["olhos " ++ olhos])
  let corpo :=
    (if estrutura = "" then [] else [estrutura]) ++
    (if is_py_int tecido then ["tecido adiposo " ++ py_str tecido ++ "/100"] else []) ++
    (if is_py_int musc then ["musculatura " ++ py_str musc ++ "/100"] else [])
  let pers :=
    (if personalidade = "" then [] else [personalidade]) ++
    (if asc = "" then []
     else if is_py_int asc_conf then
       ["ascendente " ++ asc ++ " (confiança " ++ py_str asc_conf ++ "/100)"]
     else ["ascendente " ++ asc])
  let bits :=
    (if dados = [] then [] else ["- Dados: " ++ join_with "; " dados]) ++
    (if apar = [] then [] else ["- Aparência: " ++ join_with "; " apar]) ++
    (if corpo = [] then [] else ["- Corpo: " ++ join_with " — " corpo]) ++
    (if pers = [] then [] else ["- Personalidade: " ++ join_with " | " pers]) ++
    ["- Vestuário: marcas premium e bonitas, escolhidas livremente conforme o contexto (o figurino responde ao ambiente)."]
  "- **" ++ full ++ "**\n" ++ join_with "\n" bits

/-- `render_assets_block` from `go.py`. -/
def render_assets_block (selected_assets : List JObj) : String :=
  join_with "\n" (["## ATIVOS PRESENTES", ""] ++
    selected_assets.map describe_asset ++ [""])

/-- `render_direction_block` from `go.py`: the constant creative-direction
footer. -/
def render_direction_block : String :=
  join_with "\n"
    ["## DIREÇÃO CRIATIVA (liberdade do Gemini)",
     "",
     "- Use as informações como base e expanda com criatividade, sem travar em formato.",
     "- Você pode criar espaços, detalhes e dinâmica social quando necessário para o mundo funcionar.",
     "- Não liste IDs/códigos no texto. Trate tudo como descrição humana e visual.",
     "- Continuidade pode ser local ao chat; um novo prompt pode redefinir o setup.",
     "- A pausa e o silêncio também são conteúdo.",
     ""]

/-- `generate_prompt_universe_only` from `go.py`. -/
def generate_prompt_universe_only (u : JObj) : String :=
  finish_lines ["MATRIX — PROMPT GERADOR (UNIVERSO)", "", describe_universe u,
    render_direction_block]

/-- `generate_prompt_space_only` from `go.py`. -/
def generate_prompt_space_only (space : JObj) (cluster : Option JObj)
    (variation : Option String) : String :=
  finish_lines ["MATRIX — PROMPT GERADOR (ESPAÇO)", "",
    describe_space space cluster variation, render_direction_block]

/-- `generate_prompt_assets_only` from `go.py`. -/
def generate_prompt_assets_only (selected_assets : List JObj) : String :=
  finish_lines ["MATRIX — PROMPT GERADOR (ATIVOS)", "",
    render_assets_block selected_assets, render_direction_block]

/-- `generate_prompt_universe_with_assets` from `go.py`. -/
def generate_prompt_universe_with_assets (u : JObj)
    (selected_assets : List JObj) : String :=
  finish_lines ["MATRIX — PROMPT GERADOR (UNIVERSO + ATIVOS)", "",
    describe_universe u, render_assets_block selected_assets,
    render_direction_block]

/-- `generate_prompt_space_with_assets` from `go.py`. -/
def generate_prompt_space_with_assets (space : JObj) (cluster : Option JObj)
    (variation : Option String) (selected_assets : List JObj) : String :=
  finish_lines ["MATRIX — PROMPT GERADOR (ESPAÇO + ATIVOS)", "",
    describe_space space cluster variation,
    render_assets_block selected_assets, render_direction_block]

/-- The single-pass token scan of `detect_mode`: bind the universe slot
while unfilled (on a truthy resolution), then the space slot while
unfilled, collect everything else as residual tokens, in order. -/
def scan_tokens (universes spaces : List JObj) :
    List String → Option JObj → Option JObj →
    Option JObj × Option JObj × List String
  | [], u, s => (u, s, [])
  | t :: rest, u, s =>
      if u.isNone && obj_truthy (resolve_universe universes t) then
        scan_tokens universes spaces rest (resolve_universe universes t) s
      else if s.isNone && obj_truthy (resolve_space spaces t) then
        scan_tokens universes spaces rest u (resolve_space spaces t)
      else
        let r := scan_tokens universes spaces rest u s
        (r.1, r.2.1, t :: r.2.2)

/-- The final decision block of `detect_mode`, written on the scan result
exactly as in the source (`if u and not s: ...`). -/
def detect_decide (u s : Option JObj) (sel : List JObj) :
    String × Option JObj × Option JObj × List JObj :=
  if obj_truthy u && !obj_truthy s then
    if sel.isEmpty then ("universe_only", u, none, []) else ("universe_assets", u, none, sel)
  else if obj_truthy s && !obj_truthy u then
    if sel.isEmpty then ("space_only", none, s, []) else ("space_assets", none, s, sel)
  else if !obj_truthy u && !obj_truthy s && !sel.isEmpty then
    ("assets_only", none, none, sel)
  else ("invalid", u, s, sel)

/-- `detect_mode` from `go.py`. -/
def detect_mode (universes spaces assets : List JObj) (tokens : List String) :
    String × Option JObj × Option JObj × List JObj :=
  if tokens.isEmpty then ("list", none, none, [])
  else
    let r := scan_tokens universes spaces tokens none none
    let selected_assets :=
      if r.2.2.isEmpty then [] else (resolve_assets assets r.2.2).1
    detect_decide r.1 r.2.1 selected_assets

/-- Modelled from the spec: the claim's own description of the single-pass
scan — "each token binding the universe slot only while it is unfilled,
then the space slot only while it is unfilled, all other tokens becoming
residual tokens".  Used to state C2 as a refinement. -/
def scan_tokens_spec (universes spaces : List JObj) :
    List String → Option JObj → Option JObj →
    Option JObj × Option JObj × List String
  | [], u, s => (u, s, [])
  | t :: rest, u, s =>
      if u.isNone && (resolve_universe universes t).isSome then
        scan_tokens_spec universes spaces rest (resolve_universe universes t) s
      else if s.isNone && (resolve_space spaces t).isSome then
        scan_tokens_spec universes spaces rest u (resolve_space spaces t)
      else
        let r := scan_tokens_spec universes spaces rest u s
        (r.1, r.2.1, t :: r.2.2)

/-- Modelled from the spec: the claim's decision table — "universe bound
and space unbound → universe_assets if residual assets resolved else
universe_only; space bound and universe unbound → ...; neither bound with
residual assets → assets_only; both bound, or no entity resolved at all,
→ invalid"; an empty token list → list. -/
def detect_mode_spec (universes spaces assets : List JObj)
    (tokens : List String) : String × Option JObj × Option JObj × List JObj :=
  if tokens.isEmpty then ("list", none, none, [])
  else
    let r := scan_tokens_spec universes spaces tokens none none
    let u := r.1
    let s := r.2.1
    let sel := (resolve_assets assets r.2.2).1
    if u.isSome && s.isNone then
      if sel.isEmpty then ("universe_only", u, none, []) else ("universe_assets", u, none, sel)
    else if s.isSome && u.isNone then
      if sel.isEmpty then ("space_only", none, s, []) else ("space_assets", none, s, sel)
    else if u.isNone && s.isNone && !sel.isEmpty then
      ("assets_only", none, none, sel)
    else ("invalid", u, s, sel)

/-- The outcome of one run of `main` past argument parsing: either a
composed prompt (which `main` writes to the output file), or one of the
fatal exits, distinguished exactly as the source distinguishes them. -/
inductive MainOutcome where
  | promptOut (text : String)
  | fatalNoAsset (msg : String)
  | fatalMissingCluster (cluster_id : String)
  | fatalUsage
deriving DecidableEq

/-- The mode dispatch of `main` in `go.py` (lines 822-865), on already
sanitized tokens: every fatal branch is modelled by the matching
`MainOutcome`; no prompt is composed on a fatal outcome. -/
def main_decision (universes spaces clusters assets : List JObj)
    (tokens : List String) : MainOutcome :=
  let r := detect_mode universes spaces assets tokens
  let mode := r.1
  let u := r.2.1
  let s := r.2.2.1
  let selected_assets := r.2.2.2
  if mode = "universe_only" && obj_truthy u then
    .promptOut (generate_prompt_universe_only (u.getD .onil))
  else if mode = "space_only" && obj_truthy s then
    match attach_cluster_if_needed (s.getD .onil) clusters 0 with
    | .error cid => .fatalMissingCluster cid
    | .ok cv => .promptOut (generate_prompt_space_only (s.getD .onil) cv.1 cv.2)
  else if mode = "assets_only" then
    if selected_assets.isEmpty then .fatalNoAsset "❌ Nenhum ativo válido encontrado."
    else .promptOut (generate_prompt_assets_only selected_assets)
  else if mode = "universe_assets" && obj_truthy u then
    if selected_assets.isEmpty then
      .fatalNoAsset "❌ Nenhum ativo válido encontrado para este universo."
    else .promptOut (generate_prompt_universe_with_assets (u.getD .onil) selected_assets)
  else if mode = "space_assets" && obj_truthy s then
    if selected_assets.isEmpty then
      .fatalNoAsset "❌ Nenhum ativo válido encontrado para este espaço."
    else
      match attach_cluster_if_needed (s.getD .onil) clusters selected_assets.length with
      | .error cid => .fatalMissingCluster cid
      | .ok cv =>
          .promptOut (generate_prompt_space_with_assets (s.getD .onil) cv.1 cv.2
            selected_assets)
  else .fatalUsage

/-- Is `n` a prefix of the second list? -/
def is_pfx : List Char → List Char → Bool
  | [], _ => true
  | _ :: _, [] => false
  | a :: as, b :: bs => a == b && is_pfx as bs

/-- Is `n` a contiguous infix of the second list? -/
def infix_chars (n : List Char) : List Char → Bool
  | [] => n.isEmpty
  | b :: bs => is_pfx n (b :: bs) || infix_chars n bs

/-- Does `hay` contain `needle` as a contiguous substring? -/
def str_contains (hay needle : String) : Bool := infix_chars needle.data hay.data

/-- Keep only the entries of a dict whose key satisfies `p`. -/
def obj_filter_keys (p : String → Bool) : JObj → JObj
  | .onil => .onil
  | .ocons k v tl =>
      if p k then .ocons k v (obj_filter_keys p tl) else obj_filter_keys p tl

/-- Modelled from the spec: keep the first record of each identity key,
dropping later records whose key was already seen — the claim's
"de-duplicated by identity key, a repeated identity appearing only once,
at its first position". -/
def dedup_by_key : List JObj → List String → List JObj
  | [], _ => []
  | a :: rest, seen =>
      if seen.contains (asset_key a) then dedup_by_key rest seen
      else a :: dedup_by_key rest (asset_key a :: seen)

/-! ### Basic lemmas about the string primitives -/

theorem dropWhile_head_false {p : Char → Bool} :
    ∀ {l a t}, List.dropWhile p l = a :: t → p a = false := by
  intro l
  induction l with
  | nil => intro a t h; simp [List.dropWhile] at h
  | cons c cs ih =>
      intro a t h
      by_cases hc : p c
      · rw [List.dropWhile_cons_of_pos hc] at h; exact ih h
      · rw [List.dropWhile_cons_of_neg hc] at h
        cases h
        simpa using hc

theorem dropWhile_dropWhile {p : Char → Bool} (l : List Char) :
    List.dropWhile p (List.dropWhile p l) = List.dropWhile p l := by
  cases h : List.dropWhile p l with
  | nil => simp
  | cons a t =>
      have ha := dropWhile_head_false h
      simp [List.dropWhile, ha]

theorem strip_chars_idem (l : List Char) :
    strip_chars (strip_chars l) = strip_chars l := by
  unfold strip_chars
  set L := l.dropWhile Char.isWhitespace with hL
  set M := L.reverse.dropWhile Char.isWhitespace with hM
  obtain ⟨Q, hdecomp⟩ : ∃ Q, L = M.reverse ++ Q := by
    refine ⟨(L.reverse.takeWhile Char.isWhitespace).reverse, ?_⟩
    conv_lhs => rw [← List.reverse_reverse L,
      ← List.takeWhile_append_dropWhile (p := Char.isWhitespace) (l := L.reverse)]
    rw [List.reverse_append, ← hM]
  have h1 : List.dropWhile Char.isWhitespace M.reverse = M.reverse := by
    cases hrev : M.reverse with
    | nil => simp
    | cons a t =>
        have hcons : l.dropWhile Char.isWhitespace = a :: (t ++ Q) := by
          rw [← hL, hdecomp, hrev]; simp
        have ha := dropWhile_head_false hcons
        rw [List.dropWhile_cons_of_neg (by simp [ha])]
  rw [h1, List.reverse_reverse]
  cases hMM : M with
  | nil => simp
  | cons a t =>
      have ha : Char.isWhitespace a = false := dropWhile_head_false (hM ▸ hMM)
      rw [← hMM, hM, dropWhile_dropWhile]

theorem py_strip_idem (s : String) : py_strip (py_strip s) = py_strip s := by
  unfold py_strip
  rw [show (String.mk (strip_chars s.data)).data = strip_chars s.data from rfl,
    strip_chars_idem]

theorem string_mk_eq_empty_iff (l : List Char) : String.mk l = "" ↔ l = [] := by
  constructor
  · intro h
    have := congrArg String.data h
    simpa using this
  · intro h; rw [h]

theorem py_lower_eq_empty_iff (s : String) : py_lower s = "" ↔ s = "" := by
  unfold py_lower
  rw [string_mk_eq_empty_iff, List.map_eq_nil_iff]
  constructor
  · intro h
    cases s with
    | mk d => simpa [string_mk_eq_empty_iff] using h
  · intro h; rw [h]

/-- On an already stripped non-empty string, `_norm` stays non-empty. -/
theorem py_norm_of_stripped_ne {s : String} (h : py_strip s ≠ "") :
    py_norm (py_strip s) ≠ "" := by
  unfold py_norm
  rw [py_strip_idem]
  exact fun hc => h ((py_lower_eq_empty_iff _).mp hc)

/-! ### First-match characterization of the resolvers (C10) -/

theorem resolve_entity_go_eq_find (t : String) (l : List JObj) :
    resolve_entity_go t l = l.find? (id_name_matches t) := by
  induction l with
  | nil => rfl
  | cons o rest ih =>
      unfold resolve_entity_go
      by_cases h1 : py_norm (py_str (jgetD o "id" (.jstr ""))) = t
      · rw [if_pos h1, List.find?_cons_of_pos _ (by simp [id_name_matches, h1])]
      · by_cases h2 : py_norm (py_str (jgetD o "name" (.jstr ""))) = t
        · rw [if_neg h1, if_pos h2,
            List.find?_cons_of_pos _ (by simp [id_name_matches, h1, h2])]
        · rw [if_neg h1, if_neg h2,
            List.find?_cons_of_neg _ (by simp [id_name_matches, h1, h2])]
          exact ih

theorem resolve_cluster_go_eq_find (t : String) (l : List JObj) :
    resolve_cluster_go t l = l.find? (cluster_matches t) := by
  induction l with
  | nil => rfl
  | cons c rest ih =>
      unfold resolve_cluster_go
      by_cases h1 : py_norm (py_str (jgetD c "cluster_id" (.jstr ""))) = t
      · rw [if_pos h1, List.find?_cons_of_pos _ (by simp [cluster_matches, h1])]
      · rw [if_neg h1, List.find?_cons_of_neg _ (by simp [cluster_matches, h1])]
        exact ih

theorem find_asset_go_eq_find (t : String) (l : List JObj) :
    find_asset_go t l = l.find? (asset_matches t) := by
  induction l with
  | nil => rfl
  | cons a rest ih =>
      unfold find_asset_go
      by_cases h1 : t = asset_id_norm a
      · rw [if_pos (by simp [h1]), List.find?_cons_of_pos _ (by simp [asset_matches, h1])]
      · by_cases h2 : t = asset_full_norm a
        · rw [if_pos (by simp [h2]), List.find?_cons_of_pos _ (by simp [asset_matches, h1, h2])]
        · rw [if_neg (by simp [h1, h2]),
            List.find?_cons_of_neg _ (by simp [asset_matches, h1, h2])]
          exact ih

theorem resolve_entity_go_mem {t : String} {l : List JObj} {o : JObj}
    (h : resolve_entity_go t l = some o) : o ∈ l := by
  rw [resolve_entity_go_eq_find] at h
  exact List.mem_of_find?_eq_some h

theorem resolve_cluster_go_matches {t : String} {l : List JObj} {c : JObj}
    (h : resolve_cluster_go t l = some c) : cluster_matches t c = true := by
  rw [resolve_cluster_go_eq_find] at h
  exact List.find?_some h

/-- A cluster resolved under a non-empty normalized id is a non-empty
record (the empty dict has an empty `cluster_id`). -/
theorem resolve_cluster_ne_onil {clusters : List JObj} {cid : String} {c : JObj}
    (h : resolve_cluster clusters cid = some c) (hne : py_norm cid ≠ "") :
    c ≠ JObj.onil := by
  intro hc
  subst hc
  have hm := resolve_cluster_go_matches h
  unfold cluster_matches jgetD jget at hm
  simp only [Option.getD] at hm
  have heq : py_norm (py_str (JVal.jstr "")) = py_norm cid := by simpa using hm
  have hempty : py_norm (py_str (JVal.jstr "")) = "" := rfl
  exact hne (heq.symm.trans hempty)

/-! ### Characterization of `resolve_assets` (C4) -/

theorem resolve_assets_go_fst (assets : List JObj) :
    ∀ (toks : List String) (seen : List String),
    (resolve_assets_go assets toks seen).1 =
      dedup_by_key (toks.filterMap (fun tok => find_asset_go (py_norm tok) assets)) seen := by
  intro toks
  induction toks with
  | nil => intro seen; rfl
  | cons tok rest ih =>
      intro seen
      unfold resolve_assets_go
      cases hf : find_asset_go (py_norm tok) assets with
      | none => simp [hf, List.filterMap_cons, ih]
      | some found =>
          simp only [hf, List.filterMap_cons]
          by_cases hseen : asset_key found ∈ seen
          · simp [dedup_by_key, hseen, ih]
          · simp [dedup_by_key, hseen, ih]

theorem resolve_assets_go_snd (assets : List JObj) :
    ∀ (toks : List String) (seen : List String),
    (resolve_assets_go assets toks seen).2 =
      toks.filter (fun tok => (find_asset_go (py_norm tok) assets).isNone) := by
  intro toks
  induction toks with
  | nil => intro seen; rfl
  | cons tok rest ih =>
      intro seen
      unfold resolve_assets_go
      cases hf : find_asset_go (py_norm tok) assets with
      | none => simp [hf, List.filter_cons, ih]
      | some found =>
          by_cases hseen : asset_key found ∈ seen
          · simp [hf, List.filter_cons, hseen, ih]
          · simp [hf, List.filter_cons, hseen, ih]

/-- The de-duplicated list has pairwise distinct identity keys, none of
them previously seen. -/
theorem dedup_by_key_nodup :
    ∀ (l : List JObj) (seen : List String),
    ((dedup_by_key l seen).map asset_key).Nodup ∧
      ∀ k ∈ (dedup_by_key l seen).map asset_key, k ∉ seen := by
  intro l
  induction l with
  | nil => intro seen; simp [dedup_by_key]
  | cons a rest ih =>
      intro seen
      unfold dedup_by_key
      by_cases hseen : asset_key a ∈ seen
      · simpa [hseen] using ih seen
      · obtain ⟨ihn, ihs⟩ := ih (asset_key a :: seen)
        rw [if_neg (by simpa [List.elem_iff] using hseen)]
        simp only [List.map_cons, List.nodup_cons]
        constructor
        · constructor
          · intro hmem
            exact ihs _ hmem (by simp)
          · exact ihn
        · intro k hk
          rcases List.mem_cons.mp hk with hk | hk
          · simpa [hk] using hseen
          · intro hc
            exact ihs _ hk (by simp [hc])

/-! ### Scan and mode-decision lemmas (C2, C7) -/

theorem obj_truthy_true_isSome {x : Option JObj} (h : obj_truthy x = true) :
    x.isSome = true := by
  cases x with
  | none => simp [obj_truthy] at h
  | some o => rfl

theorem resolve_universe_truthy {universes : List JObj}
    (hU : ∀ x ∈ universes, x ≠ JObj.onil) (t : String) :
    obj_truthy (resolve_universe universes t) = (resolve_universe universes t).isSome := by
  cases h : resolve_universe universes t with
  | none => rfl
  | some o =>
      have hmem : o ∈ universes := resolve_entity_go_mem h
      have := hU o hmem
      cases o with
      | onil => exact absurd rfl this
      | ocons k v tl => rfl

theorem resolve_space_truthy {spaces : List JObj}
    (hS : ∀ x ∈ spaces, x ≠ JObj.onil) (t : String) :
    obj_truthy (resolve_space spaces t) = (resolve_space spaces t).isSome := by
  cases h : resolve_space spaces t with
  | none => rfl
  | some o =>
      have hmem : o ∈ spaces := resolve_entity_go_mem h
      have := hS o hmem
      cases o with
      | onil => exact absurd rfl this
      | ocons k v tl => rfl

theorem scan_eq_spec {universes spaces : List JObj}
    (hU : ∀ x ∈ universes, x ≠ JObj.onil) (hS : ∀ x ∈ spaces, x ≠ JObj.onil) :
    ∀ (toks : List String) (u s : Option JObj),
    scan_tokens universes spaces toks u s = scan_tokens_spec universes spaces toks u s := by
  intro toks
  induction toks with
  | nil => intro u s; rfl
  | cons t rest ih =>
      intro u s
      unfold scan_tokens scan_tokens_spec
      rw [resolve_universe_truthy hU, resolve_space_truthy hS]
      by_cases h1 : (u.isNone && (resolve_universe universes t).isSome) = true
      · simp only [h1, if_true, ih]
      · simp only [h1, if_false]
        by_cases h2 : (s.isNone && (resolve_space spaces t).isSome) = true
        · simp only [h2, if_true, ih]
        · simp only [h2, if_false, ih]

theorem scan_ok (universes spaces : List JObj) :
    ∀ (toks : List String) (u s : Option JObj),
    obj_truthy u = u.isSome → obj_truthy s = s.isSome →
    obj_truthy (scan_tokens universes spaces toks u s).1 =
        (scan_tokens universes spaces toks u s).1.isSome ∧
      obj_truthy (scan_tokens universes spaces toks u s).2.1 =
        (scan_tokens universes spaces toks u s).2.1.isSome := by
  intro toks
  induction toks with
  | nil => intro u s hu hs; exact ⟨hu, hs⟩
  | cons t rest ih =>
      intro u s hu hs
      unfold scan_tokens
      by_cases h1 : (u.isNone && obj_truthy (resolve_universe universes t)) = true
      · simp only [h1, if_true]
        have htr : obj_truthy (resolve_universe universes t) = true :=
          (Bool.and_eq_true _ _ |>.mp h1).2
        exact ih _ _ (htr.trans (obj_truthy_true_isSome htr).symm) hs
      · simp only [h1, if_false]
        by_cases h2 : (s.isNone && obj_truthy (resolve_space spaces t)) = true
        · simp only [h2, if_true]
          have hts : obj_truthy (resolve_space spaces t) = true :=
            (Bool.and_eq_true _ _ |>.mp h2).2
          exact ih _ _ hu (hts.trans (obj_truthy_true_isSome hts).symm)
        · simp only [h2, if_false]
          exact ih _ _ hu hs

theorem detect_decide_fst_mem (u s : Option JObj) (sel : List JObj) :
    (detect_decide u s sel).1 ∈
      ["universe_only", "space_only", "assets_only", "universe_assets",
       "space_assets", "invalid"] := by
  unfold detect_decide
  split_ifs <;> simp

theorem detect_mode_fst_mem (universes spaces assets : List JObj)
    (tokens : List String) :
    (detect_mode universes spaces assets tokens).1 ∈
      ["list", "universe_only", "space_only", "assets_only",
       "universe_assets", "space_assets", "invalid"] := by
  unfold detect_mode
  split_ifs
  · simp
  · have := detect_decide_fst_mem
      (scan_tokens universes spaces tokens none none).1
      (scan_tokens universes spaces tokens none none).2.1
      (if (scan_tokens universes spaces tokens none none).2.2.isEmpty then []
       else (resolve_assets assets (scan_tokens universes spaces tokens none none).2.2).1)
    simp only [List.mem_cons] at this ⊢
    tauto

theorem detect_decide_asset_modes {u s : Option JObj} {sel sel2 : List JObj}
    {m : String} {u2 s2 : Option JObj}
    (h : detect_decide u s sel = (m, u2, s2, sel2))
    (hm : m = "assets_only" ∨ m = "universe_assets" ∨ m = "space_assets") :
    sel2 = sel ∧ sel ≠ [] := by
  unfold detect_decide at h
  split_ifs at h with h1 h2 h3 h4 h5
  all_goals
    simp only [Prod.mk.injEq] at h
    obtain ⟨hm0, _, _, hsel⟩ := h
  all_goals subst hm0
  all_goals rcases hm with hm | hm | hm <;> simp_all [List.isEmpty_iff]

/-- `detect_mode` only returns an asset-requiring mode together with a
non-empty resolved asset list. -/
theorem detect_mode_asset_modes {universes spaces assets : List JObj}
    {tokens : List String} {m : String} {u2 s2 : Option JObj} {sel2 : List JObj}
    (h : detect_mode universes spaces assets tokens = (m, u2, s2, sel2))
    (hm : m = "assets_only" ∨ m = "universe_assets" ∨ m = "space_assets") :
    sel2 ≠ [] := by
  unfold detect_mode at h
  split_ifs at h with htok
  · simp only [Prod.mk.injEq] at h
    obtain ⟨hm0, _, _, _⟩ := h
    subst hm0
    rcases hm with hm | hm | hm <;> simp_all
  · obtain ⟨hsel, hne⟩ := detect_decide_asset_modes h hm
    rw [hsel]
    exact hne

/-- The branch structure of `main`: an `invalid` detection falls through
the whole `elif` chain to the generic usage error. -/
theorem main_decision_invalid {universes spaces clusters assets : List JObj}
    {tokens : List String} {u2 s2 : Option JObj} {sel2 : List JObj}
    (h : detect_mode universes spaces assets tokens = ("invalid", u2, s2, sel2)) :
    main_decision universes spaces clusters assets tokens = .fatalUsage := by
  unfold main_decision
  rw [h]
  rfl

/-- The "Nenhum ativo válido encontrado" guards of `main` are dead code:
no input reaches them. -/
theorem main_decision_never_noAsset (universes spaces clusters assets : List JObj)
    (tokens : List String) (msg : String) :
    main_decision universes spaces clusters assets tokens ≠ .fatalNoAsset msg := by
  rcases hr : detect_mode universes spaces assets tokens with ⟨m, u2, s2, sel2⟩
  intro hcontra
  unfold main_decision at hcontra
  rw [hr] at hcontra
  simp only at hcontra
  by_cases h1 : (decide (m = "universe_only") && obj_truthy u2) = true
  · rw [if_pos h1] at hcontra
    exact MainOutcome.noConfusion hcontra
  · rw [if_neg h1] at hcontra
    by_cases h2 : (decide (m = "space_only") && obj_truthy s2) = true
    · rw [if_pos h2] at hcontra
      rcases hA : attach_cluster_if_needed (s2.getD .onil) clusters 0 with e | cv <;>
        rw [hA] at hcontra <;> exact MainOutcome.noConfusion hcontra
    · rw [if_neg h2] at hcontra
      by_cases h3 : m = "assets_only"
      · rw [if_pos h3] at hcontra
        by_cases h4 : sel2.isEmpty = true
        · exact detect_mode_asset_modes hr (Or.inl h3) (List.isEmpty_iff.mp h4)
        · rw [if_neg h4] at hcontra
          exact MainOutcome.noConfusion hcontra
      · rw [if_neg h3] at hcontra
        by_cases h5 : (decide (m = "universe_assets") && obj_truthy u2) = true
        · rw [if_pos h5] at hcontra
          have hm : m = "universe_assets" := by
            have := (Bool.and_eq_true _ _).mp h5
            simpa using this.1
          by_cases h6 : sel2.isEmpty = true
          · exact detect_mode_asset_modes hr (Or.inr (Or.inl hm)) (List.isEmpty_iff.mp h6)
          · rw [if_neg h6] at hcontra
            exact MainOutcome.noConfusion hcontra
        · rw [if_neg h5] at hcontra
          by_cases h7 : (decide (m = "space_assets") && obj_truthy s2) = true
          · rw [if_pos h7] at hcontra
            have hm : m = "space_assets" := by
              have := (Bool.and_eq_true _ _).mp h7
              simpa using this.1
            by_cases h8 : sel2.isEmpty = true
            · exact detect_mode_asset_modes hr (Or.inr (Or.inr hm)) (List.isEmpty_iff.mp h8)
            · rw [if_neg h8] at hcontra
              rcases hA : attach_cluster_if_needed (s2.getD .onil) clusters sel2.length
                  with e | cv <;>
                rw [hA] at hcontra <;> exact MainOutcome.noConfusion hcontra
          · rw [if_neg h7] at hcontra
            exact MainOutcome.noConfusion hcontra

theorem detect_decide_space_truthy {u s : Option JObj} {sel sel2 : List JObj}
    {m : String} {u2 s2 : Option JObj}
    (h : detect_decide u s sel = (m, u2, s2, sel2))
    (hm : m = "space_only" ∨ m = "space_assets") : obj_truthy s2 = true := by
  unfold detect_decide at h
  by_cases g1 : (obj_truthy u && !obj_truthy s) = true
  · rw [if_pos g1] at h
    by_cases ge : sel.isEmpty = true
    · rw [if_pos ge] at h
      simp only [Prod.mk.injEq] at h
      rcases hm with hm | hm <;> rw [← h.1] at hm <;> simp at hm
    · rw [if_neg ge] at h
      simp only [Prod.mk.injEq] at h
      rcases hm with hm | hm <;> rw [← h.1] at hm <;> simp at hm
  · rw [if_neg g1] at h
    by_cases g2 : (obj_truthy s && !obj_truthy u) = true
    · rw [if_pos g2] at h
      have hs : obj_truthy s = true := ((Bool.and_eq_true _ _).mp g2).1
      by_cases ge : sel.isEmpty = true
      · rw [if_pos ge] at h
        simp only [Prod.mk.injEq] at h
        rw [← h.2.2.1]
        exact hs
      · rw [if_neg ge] at h
        simp only [Prod.mk.injEq] at h
        rw [← h.2.2.1]
        exact hs
    · rw [if_neg g2] at h
      by_cases g3 : (!obj_truthy u && !obj_truthy s && !sel.isEmpty) = true
      · rw [if_pos g3] at h
        simp only [Prod.mk.injEq] at h
        rcases hm with hm | hm <;> rw [← h.1] at hm <;> simp at hm
      · rw [if_neg g3] at h
        simp only [Prod.mk.injEq] at h
        obtain ⟨hm0, hu0, hs0, hsel0⟩ := h
        exfalso
        rcases hm with hm | hm <;> rw [← hm0] at hm <;> simp at hm

theorem detect_mode_space_truthy {universes spaces assets : List JObj}
    {tokens : List String} {m : String} {u2 s2 : Option JObj} {sel2 : List JObj}
    (h : detect_mode universes spaces assets tokens = (m, u2, s2, sel2))
    (hm : m = "space_only" ∨ m = "space_assets") : obj_truthy s2 = true := by
  unfold detect_mode at h
  split_ifs at h with htok
  · simp only [Prod.mk.injEq] at h
    rcases hm with hm | hm <;> rw [← h.1] at hm <;> simp at hm
  · exact detect_decide_space_truthy h hm

/-- A fatal cluster validation inside the `space_only` branch of `main`
surfaces as the missing-cluster exit; no prompt is composed. -/
theorem main_decision_space_only_error {universes spaces clusters assets : List JObj}
    {tokens : List String} {u2 s2 : Option JObj} {sel2 : List JObj} {cid : String}
    (h : detect_mode universes spaces assets tokens = ("space_only", u2, s2, sel2))
    (hA : attach_cluster_if_needed (s2.getD .onil) clusters 0 = .error cid) :
    main_decision universes spaces clusters assets tokens = .fatalMissingCluster cid := by
  have hs : obj_truthy s2 = true := detect_mode_space_truthy h (Or.inl rfl)
  unfold main_decision
  rw [h]
  simp only
  rw [if_neg (by simp), if_pos (by simp [hs]), hA]

/-- A fatal cluster validation inside the `space_assets` branch of `main`
surfaces as the missing-cluster exit; no prompt is composed. -/
theorem main_decision_space_assets_error {universes spaces clusters assets : List JObj}
    {tokens : List String} {u2 s2 : Option JObj} {sel2 : List JObj} {cid : String}
    (h : detect_mode universes spaces assets tokens = ("space_assets", u2, s2, sel2))
    (hA : attach_cluster_if_needed (s2.getD .onil) clusters sel2.length = .error cid) :
    main_decision universes spaces clusters assets tokens = .fatalMissingCluster cid := by
  have hs : obj_truthy s2 = true := detect_mode_space_truthy h (Or.inr rfl)
  have hne : sel2 ≠ [] := detect_mode_asset_modes h (Or.inr (Or.inr rfl))
  unfold main_decision
  rw [h]
  simp only
  rw [if_neg (by simp), if_neg (by simp), if_neg (by simp), if_neg (by simp),
    if_pos (by simp [hs]), if_neg (by simpa [List.isEmpty_iff] using hne), hA]

/-! ### Field-exclusion invariance of the renderers (C5, C6) -/

theorem jget_filter_keys {p : String → Bool} :
    ∀ (o : JObj) (k : String), p k = true →
    jget (obj_filter_keys p o) k = jget o k
  | .onil, k, hk => rfl
  | .ocons k0 v tl, k, hk => by
      unfold obj_filter_keys
      by_cases h0 : p k0
      · rw [if_pos h0]
        simp only [jget]
        by_cases hk0 : k0 = k
        · rw [if_pos hk0, if_pos hk0]
        · rw [if_neg hk0, if_neg hk0]
          exact jget_filter_keys tl k hk
      · rw [if_neg h0]
        simp only [jget]
        have hk0 : k0 ≠ k := fun he => h0 (he ▸ hk)
        rw [if_neg hk0]
        exact jget_filter_keys tl k hk

/-- If a filtered-out key always yields no extra fragment, filtering does
not change the extras. -/
theorem space_extras_filter {p : String → Bool}
    (hp : ∀ k v, p k = false → extra_frag (k, v) = none) :
    ∀ o : JObj, space_extras (obj_filter_keys p o) = space_extras o
  | .onil => rfl
  | .ocons k v tl => by
      unfold obj_filter_keys
      by_cases h0 : p k
      · rw [if_pos h0]
        unfold space_extras
        rw [space_extras_filter hp tl]
      · rw [if_neg h0]
        conv_rhs => unfold space_extras
        rw [hp k v (by simpa using h0)]
        exact space_extras_filter hp tl

theorem space_extras_eq_filterMap : ∀ o : JObj,
    space_extras o = o.toList.filterMap extra_frag
  | .onil => rfl
  | .ocons k v tl => by
      unfold space_extras JObj.toList
      rw [List.filterMap_cons]
      cases hf : extra_frag (k, v) with
      | none => simp only [hf]; exact space_extras_eq_filterMap tl
      | some line => simp only [hf]; rw [space_extras_eq_filterMap tl]

/-- The key-keep predicate of the `id`/`cluster_binding` exclusion. -/
def keep_not_skip (k : String) : Bool := !(skip_keys.contains k)

/-- The key-keep predicate dropping only `asset_id`. -/
def keep_not_asset_id (k : String) : Bool := !(k == "asset_id")

/-- The key-keep predicate dropping only `cluster_id`. -/
def keep_not_cluster_id (k : String) : Bool := !(k == "cluster_id")

/-- The key-keep predicate dropping only `id`. -/
def keep_not_id (k : String) : Bool := !(k == "id")

theorem space_bullets_filter (space : JObj) :
    space_bullets (obj_filter_keys keep_not_skip space) = space_bullets space := by
  unfold space_bullets
  refine List.filterMap_congr ?_
  intro k hk
  have hkp : keep_not_skip k = true := by
    have hall : preferred_keys.all keep_not_skip = true := by decide
    exact List.all_eq_true.mp hall k hk
  rw [jget_filter_keys space k hkp]

theorem describe_space_skip_invariant (space : JObj) (cluster : Option JObj)
    (variation : Option String) :
    describe_space (obj_filter_keys keep_not_skip space) cluster variation =
      describe_space space cluster variation := by
  unfold describe_space describe_space_lines space_params_section
  rw [space_bullets_filter,
    space_extras_filter (p := keep_not_skip) ?hp space,
    show jgetD (obj_filter_keys keep_not_skip space) "name" (.jstr "") =
        jgetD space "name" (.jstr "") from ?hname]
  case hname =>
    unfold jgetD
    rw [jget_filter_keys space "name" (by decide)]
  case hp =>
    intro k v hk
    unfold extra_frag
    have hc : skip_keys.contains k = true := by
      simpa [keep_not_skip] using hk
    rw [if_pos (by simp only [hc, Bool.true_or])]

/-- `describe_universe` reads only `name` and the fixed metadata keys; any
filtering that keeps those keys leaves the section unchanged. -/
theorem describe_universe_filter_invariant {p : String → Bool}
    (hname : p "name" = true) (hmeta : ∀ k ∈ universe_meta_keys, p k = true)
    (u : JObj) :
    describe_universe (obj_filter_keys p u) = describe_universe u := by
  have hbits : universe_meta_bits (obj_filter_keys p u) = universe_meta_bits u := by
    unfold universe_meta_bits
    refine List.filterMap_congr ?_
    intro k hk
    rw [jget_filter_keys u k (hmeta k hk)]
  unfold describe_universe describe_universe_lines jgetD
  rw [hbits, jget_filter_keys u "name" hname]

theorem describe_asset_filter_invariant (a : JObj) :
    describe_asset (obj_filter_keys keep_not_asset_id a) = describe_asset a := by
  have h : ∀ k : String, keep_not_asset_id k = true →
      jget (obj_filter_keys keep_not_asset_id a) k = jget a k :=
    fun k hk => jget_filter_keys a k hk
  unfold describe_asset jgetD
  rw [h "nome" (by decide), h "sobrenome" (by decide),
    h "data_nascimento" (by decide), h "signo" (by decide),
    h "altura_cm" (by decide), h "peso_kg" (by decide), h "idade" (by decide),
    h "cor_cabelo" (by decide), h "corte_penteado" (by decide),
    h "cor_pele" (by decide), h "cor_olhos" (by decide),
    h "estrutura_corpo" (by decide), h "tecido_adiposo" (by decide),
    h "musculatura" (by decide), h "personalidade" (by decide),
    h "ascendente" (by decide), h "ascendente_confianca" (by decide)]

/-- When the cluster has a non-empty stripped `name`, the rendered cluster
section never reads `cluster_id`: dropping it changes nothing. -/
theorem cluster_section_no_cluster_id (c : JObj) (variation : Option String)
    (hname : py_strip (py_str (jgetD c "name" (.jstr ""))) ≠ "") :
    cluster_section (obj_filter_keys keep_not_cluster_id c) variation =
      cluster_section c variation := by
  have h : ∀ k : String, keep_not_cluster_id k = true →
      jget (obj_filter_keys keep_not_cluster_id c) k = jget c k :=
    fun k hk => jget_filter_keys c k hk
  unfold cluster_section cluster_contract_lines cluster_variations_lines jgetD
  rw [h "name" (by decide), h "description" (by decide),
    h "contract" (by decide), h "variations" (by decide)]
  have hname0 : ¬ (py_strip (py_str ((jget c "name").getD (.jstr ""))) = "") := by
    simpa [jgetD] using hname
  simp only [if_neg hname0]

theorem cluster_part_some (o : JObj) (variation : Option String)
    (h : o ≠ JObj.onil) : cluster_part (some o) variation = cluster_section o variation := by
  cases o with
  | onil => exact absurd rfl h
  | ocons k v tl => rfl

theorem cluster_part_no_cluster_id (c : JObj) (variation : Option String)
    (hname : py_strip (py_str (jgetD c "name" (.jstr ""))) ≠ "") :
    cluster_part (some (obj_filter_keys keep_not_cluster_id c)) variation =
      cluster_part (some c) variation := by
  have hco : c ≠ JObj.onil := by
    intro h
    subst h
    exact hname rfl
  have hfo : obj_filter_keys keep_not_cluster_id c ≠ JObj.onil := by
    intro hf
    have hkeep : jget (obj_filter_keys keep_not_cluster_id c) "name" = jget c "name" :=
      jget_filter_keys _ _ (by decide)
    rw [hf] at hkeep
    apply hname
    unfold jgetD
    rw [← hkeep]
    rfl
  rw [cluster_part_some _ _ hfo, cluster_part_some _ _ hco,
    cluster_section_no_cluster_id _ _ hname]

theorem describe_space_cluster_id_invariant (space : JObj) (c : JObj)
    (variation : Option String)
    (hname : py_strip (py_str (jgetD c "name" (.jstr ""))) ≠ "") :
    describe_space space (some (obj_filter_keys keep_not_cluster_id c)) variation =
      describe_space space (some c) variation := by
  unfold describe_space describe_space_lines
  rw [cluster_part_no_cluster_id c variation hname]

/-- The extras of a space always appear, contiguously, in the rendered
space section. -/
theorem space_extras_sublist (space : JObj) (cluster : Option JObj)
    (variation : Option String) :
    List.Sublist (space_extras space)
      (describe_space_lines space cluster variation) := by
  unfold describe_space_lines space_params_section
  by_cases he : space_extras space = []
  · rw [he]; exact List.nil_sublist _
  · rw [if_neg (by simp [he])]
    have h1 : List.Sublist (space_extras space)
        (space_bullets space ++ (space_extras space ++ [""])) :=
      ((List.sublist_append_left _ _).trans (List.sublist_append_right _ _))
    have h2 : List.Sublist (space_extras space)
        ("### Parâmetros do espaço (base para execução)" ::
          (space_bullets space ++ space_extras space ++ [""])) := by
      rw [List.append_assoc]
      exact h1.cons _
    exact h2.trans (List.sublist_append_right _ _)

/-- The candidate at key `k`, when it is a JSON array. -/
def arr_opt (o : JObj) (k : String) : Option JArr :=
  match jget o k with
  | some (.jarr v) => some v
  | _ => none

theorem first_list_at_eq (o : JObj) : ∀ keys : List String,
    first_list_at o keys = (keys.filterMap (arr_opt o)).head? := by
  intro keys
  induction keys with
  | nil => rfl
  | cons k ks ih =>
      unfold first_list_at
      rw [List.filterMap_cons]
      cases hj : jget o k with
      | none => simpa [arr_opt, hj] using ih
      | some v =>
          cases v <;> simp [arr_opt, hj, ih]

theorem objs_of_eq_filterMap : ∀ xs : JArr,
    objs_of xs = xs.toList.filterMap (fun x =>
      match x with
      | JVal.jobj o => some o
      | _ => none)
  | .anil => rfl
  | .acons x tl => by
      unfold objs_of JArr.toList
      rw [List.filterMap_cons]
      cases x <;> simp [objs_of_eq_filterMap tl]

/-- The object filter preserves relative order: the kept elements form a
sublist of the raw array. -/
theorem objs_of_sublist : ∀ xs : JArr,
    List.Sublist ((objs_of xs).map JVal.jobj) xs.toList
  | .anil => List.nil_sublist _
  | .acons x tl => by
      unfold objs_of JArr.toList
      cases x with
      | jobj o => exact (objs_of_sublist tl).cons₂ _
      | jnull => exact (objs_of_sublist tl).cons _
      | jbool b => exact (objs_of_sublist tl).cons _
      | jint s => exact (objs_of_sublist tl).cons _
      | jfloat s => exact (objs_of_sublist tl).cons _
      | jstr s => exact (objs_of_sublist tl).cons _
      | jarr a => exact (objs_of_sublist tl).cons _

theorem vtt_list_flat_eq_filterMap : ∀ xs : JArr,
    vtt_list_flat xs = xs.toList.filterMap scalar_frag
  | .anil => rfl
  | .acons x tl => by
      unfold vtt_list_flat JArr.toList
      rw [List.filterMap_cons]
      cases hf : scalar_frag x <;>
        simp [hf, vtt_list_flat_eq_filterMap tl]

theorem detect_decide_eq_spec_decision (u s : Option JObj) (sel : List JObj)
    (hu : obj_truthy u = u.isSome) (hs : obj_truthy s = s.isSome) :
    detect_decide u s sel =
      if u.isSome && s.isNone then
        if sel.isEmpty then ("universe_only", u, none, []) else ("universe_assets", u, none, sel)
      else if s.isSome && u.isNone then
        if sel.isEmpty then ("space_only", none, s, []) else ("space_assets", none, s, sel)
      else if u.isNone && s.isNone && !sel.isEmpty then
        ("assets_only", none, none, sel)
      else ("invalid", u, s, sel) := by
  unfold detect_decide
  cases u <;> cases s
  all_goals try simp_all [obj_truthy]
  all_goals rfl

/-- With well-formed (non-empty) entity records, `detect_mode` coincides
with the decision table stated by the spec. -/
theorem detect_mode_eq_spec {universes spaces : List JObj}
    (assets : List JObj) (tokens : List String)
    (hU : ∀ x ∈ universes, x ≠ JObj.onil) (hS : ∀ x ∈ spaces, x ≠ JObj.onil) :
    detect_mode universes spaces assets tokens =
      detect_mode_spec universes spaces assets tokens := by
  unfold detect_mode detect_mode_spec
  by_cases htok : tokens.isEmpty
  · rw [if_pos htok, if_pos htok]
  · rw [if_neg htok, if_neg htok]
    obtain ⟨hu, hs⟩ := scan_ok universes spaces tokens none none rfl rfl
    rw [scan_eq_spec hU hS tokens none none] at hu hs
    have hsel : (if (scan_tokens_spec universes spaces tokens none none).2.2.isEmpty
          then ([] : List JObj)
          else (resolve_assets assets (scan_tokens_spec universes spaces tokens none none).2.2).1) =
        (resolve_assets assets (scan_tokens_spec universes spaces tokens none none).2.2).1 := by
      by_cases hre : (scan_tokens_spec universes spaces tokens none none).2.2.isEmpty
      · rw [if_pos hre, List.isEmpty_iff.mp hre]
        rfl
      · rw [if_neg hre]
    rw [scan_eq_spec hU hS tokens none none]
    simp only
    rw [hsel, detect_decide_eq_spec_decision _ _ _ hu hs]

/-! ### The claims -/

/-- C1: for every space whose `cluster_binding` carries a non-empty
`cluster_id` that resolves to no known cluster, `bind_cluster`
(`attach_cluster_if_needed`) fails fatally if and only if the binding's
`requires_cluster_validation` flag is truthy — and then `main` exits with
the missing-cluster error, producing no prompt; with the flag false the
missing cluster degrades silently to no cluster (`(none, none)`), and a
space with no `cluster_binding` (or a non-dict one, or an empty
`cluster_id`) also yields no cluster without error. -/
theorem C1_bind_cluster_missing_validation (space : JObj) (clusters : List JObj)
    (n : Nat) :
    (jget space "cluster_binding" = none →
      attach_cluster_if_needed space clusters n = .ok (none, none))
    ∧ (∀ v, jget space "cluster_binding" = some v → (∀ b, v ≠ JVal.jobj b) →
      attach_cluster_if_needed space clusters n = .ok (none, none))
    ∧ (∀ b, jget space "cluster_binding" = some (.jobj b) →
      (py_strip (py_str (jgetD b "cluster_id" (.jstr ""))) = "" →
        attach_cluster_if_needed space clusters n = .ok (none, none))
      ∧ (py_strip (py_str (jgetD b "cluster_id" (.jstr ""))) ≠ "" →
        resolve_cluster clusters (py_strip (py_str (jgetD b "cluster_id" (.jstr "")))) = none →
        ((∃ e, attach_cluster_if_needed space clusters n = .error e) ↔
          py_truthy (jgetD b "requires_cluster_validation" (.jbool false)) = true)
        ∧ (py_truthy (jgetD b "requires_cluster_validation" (.jbool false)) = false →
          attach_cluster_if_needed space clusters n = .ok (none, none))))
    ∧ (∀ (universesL spacesL assetsL : List JObj) (tokens : List String)
        (u2 s2 : Option JObj) (sel2 : List JObj) (cid : String),
      (detect_mode universesL spacesL assetsL tokens = ("space_only", u2, s2, sel2) →
        attach_cluster_if_needed (s2.getD .onil) clusters 0 = .error cid →
        main_decision universesL spacesL clusters assetsL tokens = .fatalMissingCluster cid)
      ∧ (detect_mode universesL spacesL assetsL tokens = ("space_assets", u2, s2, sel2) →
        attach_cluster_if_needed (s2.getD .onil) clusters sel2.length = .error cid →
        main_decision universesL spacesL clusters assetsL tokens = .fatalMissingCluster cid)) := by
  refine ⟨?_, ?_, ?_, ?_⟩
  · intro h
    simp [attach_cluster_if_needed, h]
  · intro v h hv
    cases v with
    | jobj b => exact absurd rfl (hv b)
    | jnull => simp [attach_cluster_if_needed, h]
    | jbool b => simp [attach_cluster_if_needed, h]
    | jint s => simp [attach_cluster_if_needed, h]
    | jfloat s => simp [attach_cluster_if_needed, h]
    | jstr s => simp [attach_cluster_if_needed, h]
    | jarr a => simp [attach_cluster_if_needed, h]
  · intro b h
    constructor
    · intro hcid
      simp only [attach_cluster_if_needed, h]
      rw [if_pos hcid]
    · intro hcid hres
      have hred : attach_cluster_if_needed space clusters n =
          (if py_truthy (jgetD b "requires_cluster_validation" (.jbool false)) then
            Except.error (py_strip (py_str (jgetD b "cluster_id" (.jstr ""))))
          else .ok (none, none)) := by
        simp only [attach_cluster_if_needed, h]
        rw [if_neg hcid, hres]
        by_cases hreq : py_truthy (jgetD b "requires_cluster_validation" (.jbool false)) = true
        · rw [if_pos hreq, if_pos (by simp [obj_truthy, hreq])]
        · rw [if_neg hreq, if_neg (by simp [obj_truthy, hreq]),
            if_pos (by simp [obj_truthy])]
      constructor
      · rw [hred]
        by_cases hreq : py_truthy (jgetD b "requires_cluster_validation" (.jbool false)) = true
        · rw [if_pos hreq]
          exact ⟨fun _ => hreq, fun _ => ⟨_, rfl⟩⟩
        · rw [if_neg hreq]
          constructor
          · intro ⟨e, he⟩
            exact Except.noConfusion he
          · intro hc
            exact absurd hc hreq
      · intro hreq
        rw [hred, if_neg (by simp [hreq])]
  · intro universesL spacesL assetsL tokens u2 s2 sel2 cid
    exact ⟨fun h hA => main_decision_space_only_error h hA,
      fun h hA => main_decision_space_assets_error h hA⟩

/-- C3: for every cluster-bound space whose cluster resolves,
`bind_cluster` returns the cluster with no variation when
`inherits_contract` is falsy, and with `inherits_contract` truthy it
returns variation `"duo"` exactly when the resolved asset count is `≥ 2`
and `"solo"` otherwise (including count `0`); the variation is computed
from the count alone, never read from the data. -/
theorem C3_cluster_variation_rule (space : JObj) (clusters : List JObj)
    (n : Nat) (b : JObj) (c : JObj)
    (h : jget space "cluster_binding" = some (.jobj b))
    (hcid : py_strip (py_str (jgetD b "cluster_id" (.jstr ""))) ≠ "")
    (hres : resolve_cluster clusters (py_strip (py_str (jgetD b "cluster_id" (.jstr "")))) = some c) :
    (py_truthy (jgetD b "inherits_contract" (.jbool false)) = false →
      attach_cluster_if_needed space clusters n = .ok (some c, none))
    ∧ (py_truthy (jgetD b "inherits_contract" (.jbool false)) = true →
      attach_cluster_if_needed space clusters n =
        .ok (some c, some (if 2 ≤ n then "duo" else "solo"))
      ∧ ((2 ≤ n → attach_cluster_if_needed space clusters n = .ok (some c, some "duo"))
        ∧ (n < 2 → attach_cluster_if_needed space clusters n = .ok (some c, some "solo")))) := by
  have hcne : c ≠ JObj.onil := by
    refine resolve_cluster_ne_onil hres ?_
    have : py_strip (py_str (jgetD b "cluster_id" (.jstr ""))) =
        py_strip (py_strip (py_str (jgetD b "cluster_id" (.jstr "")))) :=
      (py_strip_idem _).symm
    intro hc
    exact py_norm_of_stripped_ne (s := py_str (jgetD b "cluster_id" (.jstr ""))) hcid hc
  have hct : obj_truthy (some c) = true := by
    cases c with
    | onil => exact absurd rfl hcne
    | ocons k v tl => rfl
  constructor
  · intro hinh
    simp only [attach_cluster_if_needed, h]
    rw [if_neg hcid, hres, if_neg (by simp [hct]), if_pos (by simp [hct, hinh])]
  · intro hinh
    have hmain : attach_cluster_if_needed space clusters n =
        .ok (some c, some (if 2 ≤ n then "duo" else "solo")) := by
      simp only [attach_cluster_if_needed, h]
      rw [if_neg hcid, hres, if_neg (by simp [hct]), if_neg (by simp [hct, hinh])]
    refine ⟨hmain, ?_, ?_⟩
    · intro hn
      rw [hmain, if_pos hn]
    · intro hn
      rw [hmain, if_neg (by omega)]

/-- The spec's own example binding: requires validation, inherits. -/
def c1_binding : JObj :=
  .ocons "cluster_id" (.jstr "C-1")
    (.ocons "inherits_contract" (.jbool true)
      (.ocons "requires_cluster_validation" (.jbool true) .onil))

/-- A space carrying `c1_binding`, resolvable as `S-1`. -/
def c1_space : JObj :=
  .ocons "id" (.jstr "S-1") (.ocons "cluster_binding" (.jobj c1_binding) .onil)

/-- A binding on a missing cluster without required validation. -/
def c1_binding_norel : JObj :=
  .ocons "cluster_id" (.jstr "C-1")
    (.ocons "requires_cluster_validation" (.jbool false) .onil)

/-- A space carrying `c1_binding_norel`. -/
def c1_space_norel : JObj := .ocons "cluster_binding" (.jobj c1_binding_norel) .onil

theorem C1_bind_cluster_missing_validation_witness :
    attach_cluster_if_needed JObj.onil [] 0 = .ok (none, none)
    ∧ (∃ e, attach_cluster_if_needed c1_space [] 0 = .error e)
    ∧ attach_cluster_if_needed c1_space_norel [] 0 = .ok (none, none)
    ∧ main_decision [] [c1_space] [] [] ["S-1"] = .fatalMissingCluster "C-1" := by
  refine ⟨(C1_bind_cluster_missing_validation JObj.onil [] 0).1 rfl, ?_, ?_, ?_⟩
  · exact (((C1_bind_cluster_missing_validation c1_space [] 0).2.2.1 c1_binding rfl).2
      (by decide) rfl).1.mpr rfl
  · exact (((C1_bind_cluster_missing_validation c1_space_norel [] 0).2.2.1
      c1_binding_norel rfl).2 (by decide) rfl).2 rfl
  · exact ((C1_bind_cluster_missing_validation c1_space [] 0).2.2.2
      [] [c1_space] [] ["S-1"] none (some c1_space) [] "C-1").1 rfl rfl

/-- The cluster `C-1` for the C3 witness. -/
def c3_cluster : JObj :=
  .ocons "cluster_id" (.jstr "C-1") (.ocons "name" (.jstr "K") .onil)

/-- A binding on `C-1` that inherits the contract. -/
def c3_binding : JObj :=
  .ocons "cluster_id" (.jstr "C-1") (.ocons "inherits_contract" (.jbool true) .onil)

/-- A binding on `C-1` that does not inherit the contract. -/
def c3_binding_noinh : JObj := .ocons "cluster_id" (.jstr "C-1") .onil

/-- A space carrying `c3_binding`. -/
def c3_space : JObj := .ocons "cluster_binding" (.jobj c3_binding) .onil

/-- A space carrying `c3_binding_noinh`. -/
def c3_space_noinh : JObj := .ocons "cluster_binding" (.jobj c3_binding_noinh) .onil

theorem C3_cluster_variation_rule_witness :
    attach_cluster_if_needed c3_space [c3_cluster] 3 = .ok (some c3_cluster, some "duo")
    ∧ attach_cluster_if_needed c3_space [c3_cluster] 1 = .ok (some c3_cluster, some "solo")
    ∧ attach_cluster_if_needed c3_space [c3_cluster] 0 = .ok (some c3_cluster, some "solo")
    ∧ attach_cluster_if_needed c3_space_noinh [c3_cluster] 3 = .ok (some c3_cluster, none) := by
  refine ⟨?_, ?_, ?_, ?_⟩
  · exact ((C3_cluster_variation_rule c3_space [c3_cluster] 3 c3_binding c3_cluster
      rfl (by decide) rfl).2 rfl).2.1 (by omega)
  · exact ((C3_cluster_variation_rule c3_space [c3_cluster] 1 c3_binding c3_cluster
      rfl (by decide) rfl).2 rfl).2.2 (by omega)
  · exact ((C3_cluster_variation_rule c3_space [c3_cluster] 0 c3_binding c3_cluster
      rfl (by decide) rfl).2 rfl).2.2 (by omega)
  · exact (C3_cluster_variation_rule c3_space_noinh [c3_cluster] 3 c3_binding_noinh
      c3_cluster rfl (by decide) rfl).1 rfl

/-- C10: all four resolvers scan front to back and return the first
entity whose normalized identifier (or display name, where applicable)
equals the normalized token — they are `List.find?` of their match
predicate — so when two entities both match, the earlier one wins: the
part of the list after the first match never affects the result. -/
theorem C10_first_match_resolution (token : String) :
    (∀ spaces : List JObj,
      resolve_space spaces token = spaces.find? (id_name_matches (py_norm token)))
    ∧ (∀ universes : List JObj,
      resolve_universe universes token = universes.find? (id_name_matches (py_norm token)))
    ∧ (∀ clusters : List JObj,
      resolve_cluster clusters token = clusters.find? (cluster_matches (py_norm token)))
    ∧ (∀ assets : List JObj,
      find_asset_go (py_norm token) assets = assets.find? (asset_matches (py_norm token)))
    ∧ (∀ (l1 : List JObj) (a : JObj) (l2 : List JObj),
      id_name_matches (py_norm token) a = true →
      resolve_space (l1 ++ a :: l2) token = resolve_space (l1 ++ [a]) token
      ∧ resolve_universe (l1 ++ a :: l2) token = resolve_universe (l1 ++ [a]) token)
    ∧ (∀ (l1 : List JObj) (a : JObj) (l2 : List JObj),
      cluster_matches (py_norm token) a = true →
      resolve_cluster (l1 ++ a :: l2) token = resolve_cluster (l1 ++ [a]) token)
    ∧ (∀ (l1 : List JObj) (a : JObj) (l2 : List JObj),
      asset_matches (py_norm token) a = true →
      find_asset_go (py_norm token) (l1 ++ a :: l2) =
        find_asset_go (py_norm token) (l1 ++ [a])) := by
  have key : ∀ (p : JObj → Bool) (l1 : List JObj) (a : JObj) (l2 : List JObj),
      p a = true → (l1 ++ a :: l2).find? p = (l1 ++ [a]).find? p := by
    intro p l1 a l2 hp
    rw [List.find?_append, List.find?_append]
    simp [List.find?_cons, hp]
  refine ⟨fun spaces => resolve_entity_go_eq_find _ spaces,
    fun universes => resolve_entity_go_eq_find _ universes,
    fun clusters => resolve_cluster_go_eq_find _ clusters,
    fun assets => find_asset_go_eq_find _ assets, ?_, ?_, ?_⟩
  · intro l1 a l2 hm
    constructor
    · rw [show resolve_space (l1 ++ a :: l2) token = (l1 ++ a :: l2).find? _ from
        resolve_entity_go_eq_find _ _,
        show resolve_space (l1 ++ [a]) token = (l1 ++ [a]).find? _ from
        resolve_entity_go_eq_find _ _]
      exact key _ l1 a l2 hm
    · rw [show resolve_universe (l1 ++ a :: l2) token = (l1 ++ a :: l2).find? _ from
        resolve_entity_go_eq_find _ _,
        show resolve_universe (l1 ++ [a]) token = (l1 ++ [a]).find? _ from
        resolve_entity_go_eq_find _ _]
      exact key _ l1 a l2 hm
  · intro l1 a l2 hm
    rw [show resolve_cluster (l1 ++ a :: l2) token = (l1 ++ a :: l2).find? _ from
      resolve_cluster_go_eq_find _ _,
      show resolve_cluster (l1 ++ [a]) token = (l1 ++ [a]).find? _ from
      resolve_cluster_go_eq_find _ _]
    exact key _ l1 a l2 hm
  · intro l1 a l2 hm
    rw [find_asset_go_eq_find, find_asset_go_eq_find]
    exact key _ l1 a l2 hm

/-- Two spaces whose ids both normalize to `s-1`. -/
def c10_a : JObj := .ocons "id" (.jstr "S-1") (.ocons "name" (.jstr "First") .onil)

/-- A second entity matching the same token. -/
def c10_b : JObj := .ocons "id" (.jstr "s-1") (.ocons "name" (.jstr "Second") .onil)

theorem C10_first_match_resolution_witness :
    resolve_space [c10_a, c10_b] "S-1" = resolve_space [c10_a] "S-1"
    ∧ resolve_space [c10_a, c10_b] "S-1" = some c10_a := by
  constructor
  · exact ((C10_first_match_resolution "S-1").2.2.2.2.1 [] c10_a [c10_b]
      (by decide)).1
  · rfl

/-- C4: `resolve_assets` resolves each token independently by first match
(case-insensitively on `asset_id` or the trimmed full name), preserving
order; an unmatched token only produces a warning (collected, in order)
and never aborts the remaining tokens; and the result is de-duplicated by
identity key, keeping only the first occurrence of each identity. -/
theorem C4_resolve_assets_characterization (assets : List JObj)
    (tokens : List String) :
    (resolve_assets assets tokens).1 =
      dedup_by_key (tokens.filterMap (fun tok => find_asset_go (py_norm tok) assets)) []
    ∧ (resolve_assets assets tokens).2 =
      tokens.filter (fun tok => (find_asset_go (py_norm tok) assets).isNone)
    ∧ ((resolve_assets assets tokens).1.map asset_key).Nodup
    ∧ (∀ tok, find_asset_go (py_norm tok) assets =
        assets.find? (asset_matches (py_norm tok)))
    ∧ (∀ (pre post : List String) (bad : String),
        find_asset_go (py_norm bad) assets = none →
        (resolve_assets assets (pre ++ bad :: post)).1 =
          (resolve_assets assets (pre ++ post)).1
        ∧ bad ∈ (resolve_assets assets (pre ++ bad :: post)).2) := by
  refine ⟨resolve_assets_go_fst assets tokens [], resolve_assets_go_snd assets tokens [],
    ?_, fun tok => find_asset_go_eq_find _ _, ?_⟩
  · unfold resolve_assets
    rw [resolve_assets_go_fst assets tokens []]
    exact (dedup_by_key_nodup _ []).1
  · intro pre post bad hbad
    constructor
    · unfold resolve_assets
      rw [resolve_assets_go_fst, resolve_assets_go_fst,
        List.filterMap_append, List.filterMap_append, List.filterMap_cons, hbad]
    · unfold resolve_assets
      rw [resolve_assets_go_snd]
      rw [List.mem_filter]
      refine ⟨by simp, by simp [hbad]⟩

/-- Asset `A-13` with a full name. -/
def c4_a13 : JObj :=
  .ocons "asset_id" (.jstr "A-13")
    (.ocons "nome" (.jstr "Ana") (.ocons "sobrenome" (.jstr "Reis") .onil))

/-- Asset `A-09`. -/
def c4_a09 : JObj :=
  .ocons "asset_id" (.jstr "A-09") (.ocons "nome" (.jstr "Bia") .onil)

theorem C4_resolve_assets_characterization_witness :
    (resolve_assets [c4_a13, c4_a09] ["A-13", "zzz", "a-13", "Ana Reis", "A-09"]).1 =
      [c4_a13, c4_a09]
    ∧ (resolve_assets [c4_a13, c4_a09] ["A-13", "zzz", "a-13", "Ana Reis", "A-09"]).2 = ["zzz"]
    ∧ (resolve_assets [c4_a13, c4_a09] ["A-13", "zzz", "A-09"]).1 =
        (resolve_assets [c4_a13, c4_a09] ["A-13", "A-09"]).1
    ∧ "zzz" ∈ (resolve_assets [c4_a13, c4_a09] ["A-13", "zzz", "A-09"]).2 := by
  refine ⟨rfl, rfl, ?_, ?_⟩
  · exact ((C4_resolve_assets_characterization [c4_a13, c4_a09]
      ["A-13", "zzz", "A-09"]).2.2.2.2 ["A-13"] ["A-09"] "zzz" rfl).1
  · exact ((C4_resolve_assets_characterization [c4_a13, c4_a09]
      ["A-13", "zzz", "A-09"]).2.2.2.2 ["A-13"] ["A-09"] "zzz" rfl).2

/-- C2: on well-formed (non-empty) entity records, `detect_mode` computes
exactly the spec's seven-outcome decision table: empty token list gives
`list`; otherwise one greedy in-order scan binds the universe slot only
while unfilled, then the space slot only while unfilled, the residual
tokens are resolved as assets, and the final mode is decided by which
slots are bound and whether residual assets resolved, everything else
collapsing to `invalid`. -/
theorem C2_detect_mode_decision_table (universes spaces assets : List JObj)
    (tokens : List String)
    (hU : ∀ x ∈ universes, x ≠ JObj.onil) (hS : ∀ x ∈ spaces, x ≠ JObj.onil) :
    detect_mode universes spaces assets tokens =
      detect_mode_spec universes spaces assets tokens
    ∧ (detect_mode universes spaces assets tokens).1 ∈
      ["list", "universe_only", "space_only", "assets_only",
       "universe_assets", "space_assets", "invalid"]
    ∧ (tokens = [] →
      detect_mode universes spaces assets tokens = ("list", none, none, [])) := by
  refine ⟨detect_mode_eq_spec assets tokens hU hS,
    detect_mode_fst_mem universes spaces assets tokens, ?_⟩
  intro h
  subst h
  rfl

/-- The universe `U-04` of the C2 witness. -/
def c2_u : JObj := .ocons "id" (.jstr "U-04") .onil

/-- The space `S-11` of the C2 witness. -/
def c2_s : JObj := .ocons "id" (.jstr "S-11") .onil

theorem C2_detect_mode_decision_table_witness :
    detect_mode [c2_u] [c2_s] [] ["U-04"] = detect_mode_spec [c2_u] [c2_s] [] ["U-04"]
    ∧ detect_mode [c2_u] [c2_s] [] [] = ("list", none, none, [])
    ∧ (detect_mode [c2_u] [c2_s] [] ["U-04", "S-11"]).1 ∈
      ["list", "universe_only", "space_only", "assets_only",
       "universe_assets", "space_assets", "invalid"] := by
  have hU : ∀ x ∈ [c2_u], x ≠ JObj.onil := by
    intro x hx
    rw [List.mem_singleton] at hx
    subst hx
    exact fun h => JObj.noConfusion h
  have hS : ∀ x ∈ [c2_s], x ≠ JObj.onil := by
    intro x hx
    rw [List.mem_singleton] at hx
    subst hx
    exact fun h => JObj.noConfusion h
  refine ⟨(C2_detect_mode_decision_table [c2_u] [c2_s] [] ["U-04"] hU hS).1,
    (C2_detect_mode_decision_table [c2_u] [c2_s] [] [] hU hS).2.2 rfl,
    (C2_detect_mode_decision_table [c2_u] [c2_s] [] ["U-04", "S-11"] hU hS).2.1⟩

/-- The universe `U-04` of the C7 counterexample. -/
def c7_u : JObj := .ocons "id" (.jstr "U-04") .onil

/-- The space `S-11` of the C7 counterexample. -/
def c7_s : JObj := .ocons "id" (.jstr "S-11") .onil

/-- C7 counterexample: with tokens present, nothing bound and zero assets
resolved, `main` exits with the generic invalid-usage report — the same
report as the explicitly invalid both-universe-and-space combination, not
a distinct "no valid entity found" report, which contradicts the claim's
required distinction. -/
theorem C7_counterexample :
    main_decision [] [] [] [] ["zzz"] = MainOutcome.fatalUsage
    ∧ main_decision [c7_u] [c7_s] [] [] ["U-04", "S-11"] = MainOutcome.fatalUsage
    ∧ MainOutcome.fatalUsage ≠
      MainOutcome.fatalNoAsset "❌ Nenhum ativo válido encontrado." := by
  refine ⟨rfl, rfl, ?_⟩
  intro h
  exact MainOutcome.noConfusion h

/-- C7 amended: when tokens are present but nothing binds and zero assets
resolve, `detect_mode` returns `invalid` and `main` fails with the same
generic invalid-usage exit as the both-bound combination, composing no
prompt; the distinct "no valid entity found" guards in `main` are dead
code, because `detect_mode` only returns an asset-requiring mode together
with a non-empty asset list. -/
theorem C7_zero_resolution_invalid_usage (universes spaces clusters assets : List JObj)
    (tokens : List String) :
    (∀ (u2 s2 : Option JObj) (sel2 : List JObj),
      detect_mode universes spaces assets tokens = ("invalid", u2, s2, sel2) →
      main_decision universes spaces clusters assets tokens = .fatalUsage)
    ∧ (∀ (m : String) (u2 s2 : Option JObj) (sel2 : List JObj),
      detect_mode universes spaces assets tokens = (m, u2, s2, sel2) →
      (m = "assets_only" ∨ m = "universe_assets" ∨ m = "space_assets") →
      sel2 ≠ [])
    ∧ (∀ msg, main_decision universes spaces clusters assets tokens ≠
        .fatalNoAsset msg) := by
  exact ⟨fun u2 s2 sel2 h => main_decision_invalid h,
    fun m u2 s2 sel2 h hm => detect_mode_asset_modes h hm,
    main_decision_never_noAsset universes spaces clusters assets tokens⟩

theorem C7_zero_resolution_invalid_usage_witness :
    main_decision [] [] [] [] ["zzz"] = MainOutcome.fatalUsage
    ∧ main_decision [] [] [] [] ["zzz"] ≠
      MainOutcome.fatalNoAsset "❌ Nenhum ativo válido encontrado." := by
  refine ⟨(C7_zero_resolution_invalid_usage [] [] [] [] ["zzz"]).1 none none [] rfl,
    (C7_zero_resolution_invalid_usage [] [] [] [] ["zzz"]).2.2 _⟩

/-- The object-element filter of the normalizer. -/
def as_obj : JVal → Option JObj
  | .jobj o => some o
  | _ => none

theorem objs_of_eq_filterMap_as_obj : ∀ xs : JArr,
    objs_of xs = xs.toList.filterMap as_obj := by
  intro xs
  rw [objs_of_eq_filterMap]
  rfl

/-- C9 counterexample: two shapes refute the claim.  A mapping keyed only
by `items` yields the empty list from `get_assets`, although the claim
names `items` among the probed candidate container keys (which would
return the one-object list); and a bare list is NOT "filtered to objects
directly" for every entity kind: `get_clusters` accepts only a mapping
keyed `clusters` and returns the empty list on a bare one-object list. -/
theorem C9_counterexample :
    get_assets (.jobj (.ocons "items" (.jarr (.acons (.jobj .onil) .anil)) .onil)) = []
    ∧ get_clusters (.jarr (.acons (.jobj .onil) .anil)) = []
    ∧ ([] : List JObj) ≠ [JObj.onil] := by
  refine ⟨rfl, rfl, ?_⟩
  intro h
  exact List.noConfusion h

/-- C9 amended: the Schema Normalizer never raises and returns only
object elements in their original relative order, but shape acceptance is
kind-specific.  For assets a bare list is filtered to objects directly,
and a keyed mapping is probed with exactly `assets`, `assets_registry`,
`registry` (no `items`), returning the first candidate whose value is a
sequence, filtered to objects.  Spaces and universes accept their single
candidate key (`spaces` / `universes`) on a keyed mapping and also a bare
list, filtered directly.  Clusters accept only a mapping keyed
`clusters`: a bare list of clusters yields the empty sequence.  Every
other shape, or no matching candidate, yields the empty sequence. -/
theorem C9_schema_normalizer :
    (∀ xs : JArr, get_assets (.jarr xs) = xs.toList.filterMap as_obj
      ∧ List.Sublist ((get_assets (.jarr xs)).map JVal.jobj) xs.toList)
    ∧ (∀ o : JObj, get_assets (.jobj o) =
        ((["assets", "assets_registry", "registry"].filterMap (arr_opt o)).head?.map
          (fun v => v.toList.filterMap as_obj)).getD [])
    ∧ get_assets .jnull = [] ∧ (∀ b, get_assets (.jbool b) = [])
    ∧ (∀ s, get_assets (.jint s) = []) ∧ (∀ s, get_assets (.jfloat s) = [])
    ∧ (∀ s, get_assets (.jstr s) = [])
    ∧ (∀ xs : JArr, get_spaces (.jarr xs) = xs.toList.filterMap as_obj
      ∧ get_universes (.jarr xs) = xs.toList.filterMap as_obj
      ∧ get_clusters (.jarr xs) = [])
    ∧ (get_spaces .jnull = [] ∧ get_clusters .jnull = [] ∧ get_universes .jnull = [])
    ∧ (∀ s, get_spaces (.jstr s) = [] ∧ get_clusters (.jstr s) = []
      ∧ get_universes (.jstr s) = [])
    ∧ (∀ o : JObj, get_spaces (.jobj o) =
        ((["spaces"].filterMap (arr_opt o)).head?.map
          (fun v => v.toList.filterMap as_obj)).getD [])
    ∧ (∀ o : JObj, get_clusters (.jobj o) =
        ((["clusters"].filterMap (arr_opt o)).head?.map
          (fun v => v.toList.filterMap as_obj)).getD [])
    ∧ (∀ o : JObj, get_universes (.jobj o) =
        ((["universes"].filterMap (arr_opt o)).head?.map
          (fun v => v.toList.filterMap as_obj)).getD []) := by
  refine ⟨?_, ?_, rfl, fun b => rfl, fun s => rfl, fun s => rfl, fun s => rfl,
    ?_, ⟨rfl, rfl, rfl⟩, fun s => ⟨rfl, rfl, rfl⟩,
    ?_, ?_, ?_⟩
  · intro xs
    exact ⟨objs_of_eq_filterMap_as_obj xs, objs_of_sublist xs⟩
  · intro o
    show (match first_list_at o ["assets", "assets_registry", "registry"] with
      | some v => objs_of v
      | none => []) = _
    rw [first_list_at_eq]
    cases hh : (["assets", "assets_registry", "registry"].filterMap (arr_opt o)).head? with
    | none => rfl
    | some v => simp [objs_of_eq_filterMap_as_obj]
  · intro xs
    exact ⟨objs_of_eq_filterMap_as_obj xs, objs_of_eq_filterMap_as_obj xs, rfl⟩
  · intro o
    show (match jget o "spaces" with
      | some (.jarr v) => objs_of v
      | _ => []) = _
    rw [List.filterMap_cons]
    cases hj : jget o "spaces" with
    | none => simp [arr_opt, hj]
    | some v => cases v <;> simp [arr_opt, hj, objs_of_eq_filterMap_as_obj]
  · intro o
    show (match jget o "clusters" with
      | some (.jarr v) => objs_of v
      | _ => []) = _
    rw [List.filterMap_cons]
    cases hj : jget o "clusters" with
    | none => simp [arr_opt, hj]
    | some v => cases v <;> simp [arr_opt, hj, objs_of_eq_filterMap_as_obj]
  · intro o
    show (match jget o "universes" with
      | some (.jarr v) => objs_of v
      | _ => []) = _
    rw [List.filterMap_cons]
    cases hj : jget o "universes" with
    | none => simp [arr_opt, hj]
    | some v => cases v <;> simp [arr_opt, hj, objs_of_eq_filterMap_as_obj]

/-- C8 counterexample: a boolean element of a sequence serializes via
Python `str` to `"True"`, not to the localized token `"sim"` that the
same boolean yields standalone — `isinstance(True, int)` holds, so the
list branch formats it with `str(x).strip()`. -/
theorem C8_counterexample :
    value_to_text (.jarr (.acons (.jbool true) .anil)) = "True"
    ∧ value_to_text (.jbool true) = "sim"
    ∧ ("True" : String) ≠ "sim" := by
  refine ⟨rfl, rfl, by decide⟩

/-- C8 amended: `_value_to_text` is total and returns `""` on `null`, the
empty sequence and the empty mapping; a sequence keeps exactly its scalar
elements (strings, numbers — and booleans, which Python counts as `int`),
each as `str(x).strip()`, dropped when empty, joined with `", "` in
order; string and numeric elements thus serialize as they would
standalone, but a boolean element yields Python's `"True"`/`"False"`,
not the standalone localized `"sim"`/`"não"`; `null`, sequences and
mappings inside a sequence are dropped. -/
theorem C8_value_serializer (xs : JArr) (s : String) (b : Bool) (o : JObj)
    (ys : JArr) :
    value_to_text .jnull = ""
    ∧ value_to_text (.jarr .anil) = ""
    ∧ value_to_text (.jobj .onil) = ""
    ∧ value_to_text (.jarr xs) = safe_join (xs.toList.filterMap scalar_frag) ", "
    ∧ (py_strip s ≠ "" → scalar_frag (.jstr s) = some (value_to_text (.jstr s)))
    ∧ (py_strip s = s → s ≠ "" →
      scalar_frag (.jint s) = some (value_to_text (.jint s)))
    ∧ (py_strip s = s → s ≠ "" →
      scalar_frag (.jfloat s) = some (value_to_text (.jfloat s)))
    ∧ scalar_frag (.jbool b) = some (if b then "True" else "False")
    ∧ value_to_text (.jarr (.acons (.jbool b) .anil)) = (if b then "True" else "False")
    ∧ value_to_text (.jbool b) = (if b then "sim" else "não")
    ∧ scalar_frag .jnull = none
    ∧ scalar_frag (.jobj o) = none
    ∧ scalar_frag (.jarr ys) = none := by
  refine ⟨rfl, rfl, rfl, ?_, ?_, ?_, ?_, rfl, ?_, rfl, rfl, rfl, rfl⟩
  · show safe_join (vtt_list_flat xs) ", " = _
    rw [vtt_list_flat_eq_filterMap]
  · intro h
    simp [scalar_frag, value_to_text, h]
  · intro hs h
    have hne : ¬ (py_strip s = "") := by rw [hs]; exact h
    simp [scalar_frag, value_to_text, hs, hne, h]
  · intro hs h
    have hne : ¬ (py_strip s = "") := by rw [hs]; exact h
    simp [scalar_frag, value_to_text, hs, hne, h]
  · cases b <;> rfl

theorem C8_value_serializer_witness :
    scalar_frag (.jstr " x ") = some (value_to_text (.jstr " x "))
    ∧ scalar_frag (.jint "5") = some (value_to_text (.jint "5"))
    ∧ scalar_frag (.jfloat "2.5") = some (value_to_text (.jfloat "2.5")) := by
  refine ⟨(C8_value_serializer .anil " x " true .onil .anil).2.2.2.2.1 (by decide),
    (C8_value_serializer .anil "5" true .onil .anil).2.2.2.2.2.1 (by decide) (by decide),
    (C8_value_serializer .anil "2.5" true .onil .anil).2.2.2.2.2.2.1 (by decide) (by decide)⟩

/-- C6 counterexample: `describe_universe` has no extras loop — a universe
field outside the fixed metadata allow-list (here `foo`) is silently
dropped, neither its humanized key nor its value appears in the output. -/
theorem C6_counterexample :
    describe_universe (.ocons "name" (.jstr "X") (.ocons "foo" (.jstr "bar") .onil)) =
      "## UNIVERSO ATIVO\n\n**X**\n"
    ∧ str_contains
        (describe_universe (.ocons "name" (.jstr "X") (.ocons "foo" (.jstr "bar") .onil)))
        "bar" = false
    ∧ str_contains
        (describe_universe (.ocons "name" (.jstr "X") (.ocons "foo" (.jstr "bar") .onil)))
        "Foo" = false := by
  refine ⟨rfl, by decide, by decide⟩

/-- C6 amended: the elasticity guarantee holds for the space section only:
every field of a space record outside the exclusion set and the
allow-list whose serialized value is non-empty is rendered, in original
key order, under its humanized title-cased key; the universe section,
however, renders only its fixed metadata allow-list (plus `name`) and
silently drops unknown fields. -/
theorem C6_elastic_extras (space : JObj) (cluster : Option JObj)
    (variation : Option String) (u : JObj) :
    space_extras space = space.toList.filterMap extra_frag
    ∧ List.Sublist (space_extras space) (describe_space_lines space cluster variation)
    ∧ (∀ (k : String) (v : JVal), (k, v) ∈ space.toList →
      skip_keys.contains k = false → preferred_keys.contains k = false →
      value_to_text v ≠ "" →
      ("- " ++ py_title (klabel k) ++ ": " ++ value_to_text v) ∈
        describe_space_lines space cluster variation)
    ∧ describe_universe
        (obj_filter_keys (fun k => k == "name" || universe_meta_keys.contains k) u) =
      describe_universe u := by
  refine ⟨space_extras_eq_filterMap space, space_extras_sublist space cluster variation,
    ?_, ?_⟩
  · intro k v hmem hsk hpk hv
    have hs1 : k ∉ skip_keys := fun hin => by
      have h2 : skip_keys.contains k = true := List.elem_iff.mpr hin
      rw [hsk] at h2
      exact Bool.noConfusion h2
    have hp1 : k ∉ preferred_keys := fun hin => by
      have h2 : preferred_keys.contains k = true := List.elem_iff.mpr hin
      rw [hpk] at h2
      exact Bool.noConfusion h2
    have hline : ("- " ++ py_title (klabel k) ++ ": " ++ value_to_text v) ∈
        space_extras space := by
      rw [space_extras_eq_filterMap]
      refine List.mem_filterMap.mpr ⟨(k, v), hmem, ?_⟩
      simp [extra_frag, hv, hs1, hp1]
    exact (space_extras_sublist space cluster variation).subset hline
  · exact describe_universe_filter_invariant
      (p := fun k => k == "name" || universe_meta_keys.contains k) (by decide)
      (by decide) u

theorem C6_elastic_extras_witness :
    ("- " ++ py_title (klabel "foo") ++ ": " ++ value_to_text (.jstr "bar")) ∈
      describe_space_lines (.ocons "foo" (.jstr "bar") .onil) none none
    ∧ describe_universe
        (obj_filter_keys (fun k => k == "name" || universe_meta_keys.contains k)
          (.ocons "name" (.jstr "X") .onil)) =
      describe_universe (.ocons "name" (.jstr "X") .onil) := by
  refine ⟨(C6_elastic_extras (.ocons "foo" (.jstr "bar") .onil) none none .onil).2.2.1
      "foo" (.jstr "bar") (by simp [JObj.toList]) rfl rfl (by decide),
    (C6_elastic_extras .onil none none (.ocons "name" (.jstr "X") .onil)).2.2.2⟩

set_option maxHeartbeats 2000000 in
/-- C5 counterexample: the cluster sub-section of a space falls back to
displaying the raw `cluster_id` as the cluster's name when the cluster
record has no non-empty `name` — the composed prompt then contains the
raw identifier `C-1`. -/
theorem C5_counterexample :
    str_contains (generate_prompt_space_only (.ocons "name" (.jstr "X") .onil)
      (some (.ocons "cluster_id" (.jstr "C-1") .onil)) none) "C-1" = true := by
  decide

/-- C5 amended: the renderers never read the excluded identifier fields —
removing `id`/`cluster_binding` from a space, `id` from a universe, or
`asset_id` from an asset leaves every section byte-identical — and the
cluster sub-section ignores `cluster_id` whenever the cluster has a
non-empty name; but when the cluster's name is empty the raw `cluster_id`
is rendered as the fallback display name (see the counterexample), so the
exclusion does not extend to that fallback. -/
theorem C5_identifier_exclusion (space : JObj) (c : JObj) (a : JObj) (u : JObj)
    (cluster : Option JObj) (variation : Option String) :
    describe_space (obj_filter_keys keep_not_skip space) cluster variation =
      describe_space space cluster variation
    ∧ describe_universe (obj_filter_keys keep_not_id u) = describe_universe u
    ∧ describe_asset (obj_filter_keys keep_not_asset_id a) = describe_asset a
    ∧ (py_strip (py_str (jgetD c "name" (.jstr ""))) ≠ "" →
      describe_space space (some (obj_filter_keys keep_not_cluster_id c)) variation =
        describe_space space (some c) variation) := by
  refine ⟨describe_space_skip_invariant space cluster variation,
    describe_universe_filter_invariant (p := keep_not_id) (by decide) (by decide) u,
    describe_asset_filter_invariant a,
    fun h => describe_space_cluster_id_invariant space c variation h⟩

/-- The space of the C5 witness. -/
def c5_space : JObj := .ocons "name" (.jstr "X") .onil

/-- A cluster with a non-empty name, carrying a `cluster_id`. -/
def c5_cluster : JObj :=
  .ocons "name" (.jstr "K") (.ocons "cluster_id" (.jstr "C-1") .onil)

theorem C5_identifier_exclusion_witness :
    describe_space c5_space (some (obj_filter_keys keep_not_cluster_id c5_cluster)) none =
      describe_space c5_space (some c5_cluster) none := by
  exact (C5_identifier_exclusion c5_space c5_cluster .onil .onil none none).2.2.2
    (by decide)
